import Mathlib

/-!
Verification of the core of the FGU character sheet parser
(source file proyectocsFGU_V2.py): a shallow embedding of its
extraction-and-render pipeline over parsed XML trees, with theorems
checking the natural-language specification against the code.
-/

namespace FGU

/-- Characters treated as whitespace by Python str.strip (ASCII range). -/
def isPyWs (c : Char) : Bool :=
  c = ' ' || c = '\t' || c = '\n' || c = '\r' || c = '\x0b' || c = '\x0c'

/-- Models Python str.strip(): removes leading and trailing whitespace. -/
def pyStrip (s : String) : String :=
  ⟨((s.data.dropWhile isPyWs).reverse.dropWhile isPyWs).reverse⟩

/-- Checks the remainder of a Python integer digit part after its first
    digit: digits, with single underscores allowed between digits. -/
def pyDigitsRest : List Char → Bool
  | [] => true
  | '_' :: c :: cs => c.isDigit && pyDigitsRest cs
  | '_' :: [] => false
  | c :: cs => c.isDigit && pyDigitsRest cs

/-- Checks a digit part of a Python integer literal: nonempty, starting with
    a digit, underscores only singly and between digits. -/
def pyDigitsOk : List Char → Bool
  | [] => false
  | c :: cs => c.isDigit && pyDigitsRest cs

/-- Numeric value of the digit characters in a list, skipping underscores. -/
def digitsVal (l : List Char) : Nat :=
  l.foldl (fun a c => if c.isDigit then a * 10 + (c.toNat - 48) else a) 0

/-- Models Python int(s) on ASCII strings: optional surrounding whitespace,
    an optional sign, then a digit part; none when int() would raise
    ValueError. -/
def pyInt (s : String) : Option Int :=
  let t := ((s.data.dropWhile isPyWs).reverse.dropWhile isPyWs).reverse
  match t with
  | '+' :: rest => if pyDigitsOk rest then some (digitsVal rest) else none
  | '-' :: rest => if pyDigitsOk rest then some (-(digitsVal rest : Int)) else none
  | rest => if pyDigitsOk rest then some (digitsVal rest) else none

/-- Models Python str.isdigit() on ASCII strings. -/
def pyIsDigit (s : String) : Bool :=
  !s.data.isEmpty && s.data.all Char.isDigit

/-- Models the Python substring test (pat in s). -/
def strContains (s pat : String) : Bool :=
  s.data.tails.any (fun t => pat.data.isPrefixOf t)

/-- Lexicographic comparison of character lists by code point, the
    comparison Python uses on strings. -/
def charListLe : List Char → List Char → Bool
  | [], _ => true
  | _ :: _, [] => false
  | c :: cs, d :: ds =>
    if c < d then true
    else if c = d then charListLe cs ds
    else false

/-- Models the Python string comparison a <= b by code points. -/
def pyStrLe (a b : String) : Bool :=
  charListLe a.data b.data

/-- Totality of the lexicographic comparison. -/
theorem charListLe_total (l1 : List Char) : ∀ l2,
    charListLe l1 l2 = true ∨ charListLe l2 l1 = true := by
  induction l1 with
  | nil => intro l2; left; rfl
  | cons c cs ih =>
    intro l2
    cases l2 with
    | nil => right; rfl
    | cons d ds =>
      by_cases h1 : c < d
      · left; simp [charListLe, h1]
      · by_cases h2 : c = d
        · subst h2
          rcases ih ds with h | h
          · left; simp [charListLe, h1, h]
          · right; simp [charListLe, h1, h]
        · have hdc : d < c := by
            rcases lt_trichotomy c d with h | h | h
            · exact absurd h h1
            · exact absurd h h2
            · exact h
          right
          simp [charListLe, hdc]

/-- Transitivity of the lexicographic comparison. -/
theorem charListLe_trans : ∀ l1 l2 l3 : List Char,
    charListLe l1 l2 = true → charListLe l2 l3 = true → charListLe l1 l3 = true := by
  intro l1
  induction l1 with
  | nil => intro l2 l3 _ _; rfl
  | cons c cs ih =>
    intro l2 l3 h12 h23
    cases l2 with
    | nil => simp [charListLe] at h12
    | cons d ds =>
      cases l3 with
      | nil => simp [charListLe] at h23
      | cons e es =>
        simp only [charListLe] at h12 h23 ⊢
        by_cases hcd : c < d
        · by_cases hde : d < e
          · simp [lt_trans hcd hde]
          · by_cases hde2 : d = e
            · subst hde2; simp [hcd]
            · simp [hde, hde2] at h23
        · by_cases hcd2 : c = d
          · subst hcd2
            by_cases hce : c < e
            · simp [hce]
            · by_cases hce2 : c = e
              · subst hce2
                simp [hcd] at h12
                simp [hce, h12] at h23 ⊢
                exact ih ds es h12 h23
              · simp [hce, hce2] at h23
          · simp [hcd, hcd2] at h12

/-- Per-character replacement performed by html.escape with quote=True. -/
def escChar (c : Char) : String :=
  if c = '&' then "&amp;"
  else if c = '<' then "&lt;"
  else if c = '>' then "&gt;"
  else if c = '\"' then "&quot;"
  else if c = '\x27' then "&#x27;"
  else String.singleton c

/-- Models Python html.escape with quote=True. -/
def pyHtmlEscape (s : String) : String :=
  String.join (s.data.map escChar)

/-- Models escape_html from the source: falsy (empty) text maps to the empty
    string, otherwise html.escape is applied. -/
def escape_html (text : String) : String :=
  if text.isEmpty then "" else pyHtmlEscape text

/-- Per-character replacement performed by ElementTree _escape_cdata. -/
def escCdataChar (c : Char) : String :=
  if c = '&' then "&amp;"
  else if c = '<' then "&lt;"
  else if c = '>' then "&gt;"
  else String.singleton c

/-- Models ElementTree _escape_cdata, used for text and tails. -/
def escCdata (s : String) : String :=
  String.join (s.data.map escCdataChar)

/-- Per-character replacement performed by ElementTree _escape_attrib_html,
    the attribute escaping of the html serialization method. -/
def escAttribChar (c : Char) : String :=
  if c = '&' then "&amp;"
  else if c = '>' then "&gt;"
  else if c = '\"' then "&quot;"
  else String.singleton c

/-- Models ElementTree _escape_attrib_html, used for attribute values. -/
def escAttrib (s : String) : String :=
  String.join (s.data.map escAttribChar)

/-- An XML element as produced by xml.etree.ElementTree: tag, attributes in
    document order, leading text, child elements, and trailing text. -/
inductive Elem where
  | mk (tag : String) (attrs : List (String × String)) (text : Option String)
      (children : List Elem) (tail : Option String)

/-- Tag of an element. -/
def Elem.tag : Elem → String
  | .mk t _ _ _ _ => t

/-- Attributes of an element. -/
def Elem.attrs : Elem → List (String × String)
  | .mk _ a _ _ _ => a

/-- Leading text of an element. -/
def Elem.text : Elem → Option String
  | .mk _ _ tx _ _ => tx

/-- Children of an element. -/
def Elem.children : Elem → List Elem
  | .mk _ _ _ ch _ => ch

/-- Trailing text of an element. -/
def Elem.tail : Elem → Option String
  | .mk _ _ _ _ tl => tl

/-- Models ElementTree find with a path of child tag names: the first
    element reached by the path, searching children in document order at
    every step. -/
def findPathFrom : List String → Elem → Option Elem
  | [], e => some e
  | t :: rest, e =>
      ((e.children.filter (fun c => c.tag == t)).filterMap
        (fun c => findPathFrom rest c)).head?

/-- Models element.find(path) with the element first. -/
def findPath (e : Elem) (path : List String) : Option Elem :=
  findPathFrom path e

/-- Models safe_get_text from the source: fetch the text of a sub-element
    along a path, returning the default when the element, the sub-element,
    or its text is missing or empty. -/
def safe_get_text (element : Option Elem) (path : List String) (dflt : String) : String :=
  match element with
  | none => dflt
  | some e =>
    match findPath e path with
    | none => dflt
    | some sub =>
      match sub.text with
      | some t => if t.isEmpty then dflt else t
      | none => dflt

/-- The HTML_EMPTY tag set of ElementTree: void elements serialized without
    a closing tag. -/
def htmlEmptyTags : List String :=
  ["area", "base", "basefont", "br", "col", "embed", "frame", "hr",
   "img", "input", "isindex", "link", "meta", "param", "source", "track", "wbr"]

/-- Lower-cases every character of a string. -/
def strLower (s : String) : String :=
  ⟨s.data.map Char.toLower⟩

mutual

/-- Models ElementTree tostring with method html on one element (the
    _serialize_html routine), including the trailing tail text. -/
def tostringHtml : Elem → String
  | .mk tag attrs text children tail =>
    let ltag := strLower tag
    "<" ++ tag
      ++ String.join (attrs.map (fun kv => " " ++ kv.1 ++ "=\"" ++ escAttrib kv.2 ++ "\""))
      ++ ">"
      ++ (match text with
          | some t => if ltag == "script" || ltag == "style" then t else escCdata t
          | none => "")
      ++ tostringHtmlList children
      ++ (if htmlEmptyTags.contains ltag then "" else "</" ++ tag ++ ">")
      ++ (match tail with
          | some t => escCdata t
          | none => "")

/-- Serializes a list of elements in order. -/
def tostringHtmlList : List Elem → String
  | [] => ""
  | e :: es => tostringHtml e ++ tostringHtmlList es

end

/-- Splits a character list at newline characters, the semantics of the
    Python str.split call on a newline separator. -/
def splitNl : List Char → List String
  | [] => [""]
  | c :: rest =>
    if c = '\n' then "" :: splitNl rest
    else
      match splitNl rest with
      | [] => [String.singleton c]
      | s :: ss => (String.singleton c ++ s) :: ss

/-- Models Python str.split on a newline separator. -/
def pySplitNl (s : String) : List String :=
  splitNl s.data

/-- One pass of the duplicate-line filter inside formatted_html: a line is
    dropped when its stripped form is nonblank and was seen before; stripped
    nonblank forms of kept lines are recorded as seen. -/
def dedupLines (seen : List String) : List String → List String
  | [] => []
  | line :: rest =>
    let ls := pyStrip line
    if !ls.isEmpty && seen.contains ls then
      dedupLines seen rest
    else if !ls.isEmpty then
      line :: dedupLines (ls :: seen) rest
    else
      line :: dedupLines seen rest

/-- Models formatted_html from the source: the stripped leading text
    concatenated with the html serialization of each child, the result
    stripped, split into lines with stripped-duplicate lines removed,
    rejoined and stripped again. -/
def formatted_html (element : Option Elem) : String :=
  match element with
  | none => ""
  | some e =>
    let parts : List String :=
      (match e.text with
       | some t => if (pyStrip t).isEmpty then [] else [pyStrip t]
       | none => []) ++ e.children.map tostringHtml
    let html_str := pyStrip (String.join parts)
    let lines := pySplitNl html_str
    let unique_lines := dedupLines [] lines
    pyStrip (String.intercalate "\n" unique_lines)

/-- Models format_modifier from the source: numeric values are printed with
    an explicit plus sign when nonnegative; non-numeric input passes through
    unchanged. -/
def format_modifier (value : String) : String :=
  match pyInt value with
  | some val => if val ≥ 0 then "+" ++ toString val else toString val
  | none => value

/-- Models get_proficiency_bonus on the integer total level; the int() call
    on an int argument always succeeds, and Python floor division is
    Int.fdiv. -/
def get_proficiency_bonus (level : Int) : Int :=
  2 + (level - 1).fdiv 4

/-- One entry of classes_info. -/
structure ClassInfo where
  name : String
  level : String
  specialization : String
deriving DecidableEq

/-- One entry of the abilities mapping. -/
structure Ability where
  score : String
  bonus : String
  save : String
  saveprof : Bool
deriving DecidableEq

/-- One entry of the skills list. -/
structure Skill where
  name : String
  total : String
  prof : Bool
  stat : String
deriving DecidableEq

/-- One entry of the features list. -/
structure Feature where
  name : String
  level : String
deriving DecidableEq

/-- One entry of the feats list. -/
structure Feat where
  name : String
  category : String
  level : String
deriving DecidableEq

/-- One entry of the inventory list. -/
structure Item where
  name : String
  count : String
  cost : String
deriving DecidableEq

/-- One entry of the spells list. -/
structure Spell where
  name : String
  level : String
  prepared : String
  school : String
  casting_time : String
  range : String
  components : String
  duration : String
  ritual : Bool
  description : String
deriving DecidableEq

/-- One entry of the spell_slots mapping: the slot level as a string key,
    with its max and used counts as strings. -/
structure SlotEntry where
  level : String
  max : String
  used : String
deriving DecidableEq

/-- The normalized character model: exactly the locals the source extracts
    from the character record before building the HTML. -/
structure Character where
  name : String
  race : String
  subrace : String
  alignment : String
  background : String
  gender : String
  age : String
  classes_info : List ClassInfo
  total_level : Int
  prof_bonus : Int
  abilities : List (String × Ability)
  hp_total : String
  hp_wounds : String
  hp_temp : String
  ac_total : String
  speed_total : String
  initiative : String
  skills : List Skill
  features : List Feature
  feats : List Feat
  inventory : List Item
  coins : List (String × String)
  personality : String
  ideals : String
  bonds : String
  flaws : String
  spell_ability : String
  spell_save_dc : String
  spell_attack_bonus : String
  spells : List Spell
  sorcery_points : Option (String × String)
  spell_slots : List SlotEntry
deriving DecidableEq

/-- The six fixed ability keys, in iteration order. -/
def ability_names : List String :=
  ["strength", "dexterity", "constitution", "intelligence", "wisdom", "charisma"]

/-- Children of the first sub-element with the given tag, or the empty list
    when that sub-element is missing (the iteration pattern of the source). -/
def childrenOf (char : Elem) (tag : String) : List Elem :=
  match findPath char [tag] with
  | none => []
  | some e => e.children

/-- Lookup in the abilities mapping; keys are distinct, so first match is
    dict lookup. -/
def dictGet (d : List (String × Ability)) (k : String) : Option Ability :=
  (d.find? (fun kv => kv.1 == k)).map (fun kv => kv.2)

/-- Models dict.get on the coins mapping, where a later insertion of the
    same key overwrites an earlier one. -/
def coinGet (d : List (String × String)) (k : String) (dflt : String) : String :=
  match d.reverse.find? (fun kv => kv.1 == k) with
  | some kv => kv.2
  | none => dflt

/-- Extraction of the abilities mapping (source lines 128-138). -/
def extractAbilities (char : Elem) : List (String × Ability) :=
  ability_names.filterMap (fun abil_name =>
    match findPath char ["abilities", abil_name] with
    | none => none
    | some abil_elem =>
      some (abil_name,
        ⟨safe_get_text (some abil_elem) ["score"] "",
         safe_get_text (some abil_elem) ["bonus"] "",
         safe_get_text (some abil_elem) ["save"] "",
         safe_get_text (some abil_elem) ["saveprof"] "0" == "1"⟩))

/-- The total level accumulated over class entries, with levels that fail
    int() contributing nothing (source lines 107-118). -/
def totalLevelOf (char : Elem) : Int :=
  (childrenOf char "classes").foldl
    (fun acc cls =>
      match pyInt (safe_get_text (some cls) ["level"] "") with
      | some v => acc + v
      | none => acc) 0

/-- The classes_info list built in the same loop (source lines 109-123). -/
def classesInfoOf (char : Elem) : List ClassInfo :=
  (childrenOf char "classes").map (fun cls =>
    ⟨safe_get_text (some cls) ["name"] "",
     safe_get_text (some cls) ["level"] "",
     safe_get_text (some cls) ["specialization"] ""⟩)

/-- The skills list in source order (source lines 163-177). -/
def rawSkillsOf (char : Elem) : List Skill :=
  (childrenOf char "skilllist").map (fun skill =>
    ⟨safe_get_text (some skill) ["name"] "",
     safe_get_text (some skill) ["total"] "",
     safe_get_text (some skill) ["prof"] "0" == "1",
     safe_get_text (some skill) ["stat"] ""⟩)

/-- The sort order on skills: by name in the Python string order (source
    line 179). -/
def skillLE (a b : Skill) : Prop := pyStrLe a.name b.name = true

instance : DecidableRel skillLE := fun a b => inferInstanceAs (Decidable (_ = true))

instance : IsTotal Skill skillLE := ⟨fun a b => charListLe_total a.name.data b.name.data⟩

instance : IsTrans Skill skillLE := ⟨fun _ _ _ h1 h2 => charListLe_trans _ _ _ h1 h2⟩

/-- The skills list after the stable in-place sort by name; insertion sort
    is stable, so it yields the same list as the stable Python sort (source
    line 179). -/
def skillsOf (char : Elem) : List Skill :=
  List.insertionSort skillLE (rawSkillsOf char)

/-- The features list (source lines 182-191). -/
def featuresOf (char : Elem) : List Feature :=
  (childrenOf char "featurelist").map (fun f =>
    ⟨safe_get_text (some f) ["name"] "",
     safe_get_text (some f) ["level"] ""⟩)

/-- The feats list (source lines 194-205). -/
def featsOf (char : Elem) : List Feat :=
  (childrenOf char "featlist").map (fun f =>
    ⟨safe_get_text (some f) ["name"] "",
     safe_get_text (some f) ["category"] "",
     safe_get_text (some f) ["level"] ""⟩)

/-- The inventory list (source lines 208-219). -/
def inventoryOf (char : Elem) : List Item :=
  (childrenOf char "inventorylist").map (fun item =>
    ⟨safe_get_text (some item) ["name"] "",
     safe_get_text (some item) ["count"] "1",
     safe_get_text (some item) ["cost"] ""⟩)

/-- The coins mapping entries in insertion order (source lines 222-228). -/
def coinsOf (char : Elem) : List (String × String) :=
  (childrenOf char "coins").map (fun coin =>
    (safe_get_text (some coin) ["name"] "",
     safe_get_text (some coin) ["amount"] "0"))

/-- The spell ability of the first class entry that declares one (source
    lines 237-245). -/
def spellAbilityOf (char : Elem) : String :=
  match (childrenOf char "classes").find?
      (fun cls => !(safe_get_text (some cls) ["spellability"] "").isEmpty) with
  | some cls => safe_get_text (some cls) ["spellability"] ""
  | none => ""

/-- The classifying predicate for power entries: the group label contains
    the marker Spells, or the school is nonempty, and the level is nonempty
    (source line 261). -/
def spellPred (power : Elem) : Bool :=
  (strContains (safe_get_text (some power) ["group"] "") "Spells"
      || !(safe_get_text (some power) ["school"] "").isEmpty)
    && !(safe_get_text (some power) ["level"] "").isEmpty

/-- The spell record built from a qualifying power entry (source lines
    262-283). -/
def mkSpell (power : Elem) : Spell :=
  ⟨safe_get_text (some power) ["name"] "",
   safe_get_text (some power) ["level"] "",
   safe_get_text (some power) ["prepared"] "0",
   safe_get_text (some power) ["school"] "",
   safe_get_text (some power) ["castingtime"] "",
   safe_get_text (some power) ["range"] "",
   safe_get_text (some power) ["components"] "",
   safe_get_text (some power) ["duration"] "",
   safe_get_text (some power) ["ritual"] "0" == "1",
   formatted_html (findPath power ["description"])⟩

/-- The numeric part of the spell sort key: int of the level when it is all
    digits, otherwise 99 (source line 285). -/
def spellLevelKey (s : Spell) : Nat :=
  if pyIsDigit s.level then digitsVal s.level.data else 99

/-- The spell sort order: lexicographic on (level key, name), the comparison
    that the key tuple of source line 285 induces. -/
def spellLE (a b : Spell) : Prop :=
  spellLevelKey a < spellLevelKey b
    ∨ (spellLevelKey a = spellLevelKey b ∧ pyStrLe a.name b.name = true)

instance : DecidableRel spellLE := fun a b =>
  inferInstanceAs (Decidable (_ ∨ _))

instance : IsTotal Spell spellLE := by
  constructor
  intro a b
  rcases Nat.lt_trichotomy (spellLevelKey a) (spellLevelKey b) with h | h | h
  · exact Or.inl (Or.inl h)
  · rcases charListLe_total a.name.data b.name.data with hn | hn
    · exact Or.inl (Or.inr ⟨h, hn⟩)
    · exact Or.inr (Or.inr ⟨h.symm, hn⟩)
  · exact Or.inr (Or.inl h)

instance : IsTrans Spell spellLE := by
  constructor
  rintro a b c (h1 | ⟨h1e, h1n⟩) (h2 | ⟨h2e, h2n⟩)
  · exact Or.inl (h1.trans h2)
  · exact Or.inl (h2e ▸ h1)
  · exact Or.inl (h1e ▸ h2)
  · exact Or.inr ⟨h1e.trans h2e, charListLe_trans _ _ _ h1n h2n⟩

/-- The spells list: qualifying powers, in the stable sort order of source
    line 285; insertion sort is stable like the Python sort. -/
def spellsOf (char : Elem) : List Spell :=
  List.insertionSort spellLE (((childrenOf char "powers").filter spellPred).map mkSpell)

/-- The sorcery point data of the first power named Sorcery Points, kept
    only when its prepared count is nonzero (source lines 287-301). -/
def sorceryPointsOf (char : Elem) : Option (String × String) :=
  match (childrenOf char "powers").find?
      (fun p => safe_get_text (some p) ["name"] "" == "Sorcery Points") with
  | none => none
  | some power =>
    let sorcery_max := safe_get_text (some power) ["prepared"] "0"
    if !sorcery_max.isEmpty && sorcery_max != "0" then
      some (sorcery_max, safe_get_text (some power) ["locked"] "0")
    else none

/-- The nine candidate slot levels, in iteration order. -/
def slotLevels : List Nat := [1, 2, 3, 4, 5, 6, 7, 8, 9]

/-- The spell_slots entries in insertion order: one entry per slot level
    whose element exists and whose max is nonzero (source lines 303-316). -/
def spellSlotsOf (char : Elem) : List SlotEntry :=
  match findPath char ["powermeta"] with
  | none => []
  | some pm =>
    slotLevels.filterMap (fun slot_level =>
      match findPath pm ["spellslots" ++ toString slot_level] with
      | none => none
      | some slot_elem =>
        let max_slots := safe_get_text (some slot_elem) ["max"] "0"
        let used_slots := safe_get_text (some slot_elem) ["used"] "0"
        if !max_slots.isEmpty && max_slots != "0" then
          some ⟨toString slot_level, max_slots, used_slots⟩
        else none)

/-- The whole extraction stage: the character model built from the mandatory
    character record (source lines 98-316). -/
def extractCharacter (char : Elem) : Character :=
  let abilities := extractAbilities char
  let hp_elem := findPath char ["hp"]
  let init0 :=
    match findPath char ["initiative"] with
    | some ie => safe_get_text (some ie) ["total"] ""
    | none => ""
  { name := safe_get_text (some char) ["name"] ""
    race := safe_get_text (some char) ["race"] ""
    subrace := safe_get_text (some char) ["subrace"] ""
    alignment := safe_get_text (some char) ["alignment"] ""
    background := safe_get_text (some char) ["background"] ""
    gender := safe_get_text (some char) ["gender"] ""
    age := safe_get_text (some char) ["age"] ""
    classes_info := classesInfoOf char
    total_level := totalLevelOf char
    prof_bonus := get_proficiency_bonus (totalLevelOf char)
    abilities := abilities
    hp_total :=
      match hp_elem with
      | some h => safe_get_text (some h) ["total"] ""
      | none => "0"
    hp_wounds := pyStrip
      (match hp_elem with
       | some h => safe_get_text (some h) ["wounds"] ""
       | none => "0")
    hp_temp := pyStrip
      (match hp_elem with
       | some h => safe_get_text (some h) ["temporary"] ""
       | none => "0")
    ac_total :=
      match findPath char ["defenses", "ac"] with
      | some a => safe_get_text (some a) ["total"] ""
      | none => "10"
    speed_total :=
      match findPath char ["speed"] with
      | some sp => safe_get_text (some sp) ["total"] ""
      | none => "30"
    initiative :=
      if init0.isEmpty then
        match dictGet abilities "dexterity" with
        | some d => d.bonus
        | none => init0
      else init0
    skills := skillsOf char
    features := featuresOf char
    feats := featsOf char
    inventory := inventoryOf char
    coins := coinsOf char
    personality := safe_get_text (some char) ["personality"] ""
    ideals := safe_get_text (some char) ["ideals"] ""
    bonds := safe_get_text (some char) ["bonds"] ""
    flaws := safe_get_text (some char) ["flaws"] ""
    spell_ability := spellAbilityOf char
    spell_save_dc :=
      match findPath char ["spellcasting"] with
      | some sc => safe_get_text (some sc) ["saveDC"] ""
      | none => ""
    spell_attack_bonus :=
      match findPath char ["spellcasting"] with
      | some sc => safe_get_text (some sc) ["attackbonus"] ""
      | none => ""
    spells := spellsOf char
    sorcery_points := sorceryPointsOf char
    spell_slots := spellSlotsOf char }

/-- Static HTML fragment of the render stage. -/
def headChunk1 : String :=
  "<!DOCTYPE html>
<html lang=\"en\">
<head>
    <meta charset=\"UTF-8\">
    <meta name=\"viewport\" content=\"width=device-width, initial-scale=1.0\">
    <title>Character Sheet - "

/-- Static HTML fragment of the render stage. -/
def headChunk2 : String :=
  "</title>
    <style>
        * \x7b
            margin: 0;
            padding: 0;
            box-sizing: border-box;
        \x7d
        
        html \x7b
            font-size: 16px;
        \x7d
        
        body \x7b
            font-family: \x27Book Antiqua\x27, \x27Palatino Linotype\x27, Palatino, serif;
            background: linear-gradient(135deg, #f5f1e8 0%, #e8ddd4 100%);
            padding: 20px;
            color: #2c1810;
            line-height: 1.4;
            min-width: 280px;
            word-wrap: break-word;
            overflow-x: hidden;
        \x7d
        
        .character-sheet \x7b
            max-width: 1200px;
            margin: 0 auto;
            background: white;
            border: 3px solid #8b6914;
            border-radius: 8px;
            box-shadow: 0 4px 20px rgba(0,0,0,0.2);
            padding: 25px;
            box-sizing: border-box;
            width: 100%;
        \x7d
        
        .header \x7b
            border-bottom: 3px solid #8b6914;
            padding-bottom: 15px;
            margin-bottom: 20px;
        \x7d
        
        .header h1 \x7b
            font-size: 2.5em;
            color: #8b6914;
            text-align: center;
            margin-bottom: 10px;
            text-shadow: 2px 2px 4px rgba(0,0,0,0.1);
        \x7d
        
        .header-info \x7b
            display: grid;
            grid-template-columns: repeat(auto-fit, minmax(200px, 1fr));
            gap: 10px;
            font-size: 1.1em;
        \x7d
        
        .header-info div \x7b
            background: #f5f1e8;
            padding: 8px 12px;
            border-radius: 4px;
            border-left: 4px solid #8b6914;
        \x7d
        
        .header-info strong \x7b
            color: #8b6914;
            margin-right: 5px;
        \x7d
        
        .sidebar \x7b
            display: flex;
            flex-direction: column;
            gap: 5px;
            width: 100%;
            min-width: 0;
        \x7d
        
        .stat-box \x7b
            background: #f5f1e8;
            border: 1px solid #8b6914;
            border-radius: 3px;
            padding: 3px;
            text-align: center;
            margin-bottom: 4px;
            min-width: 0;
            box-sizing: border-box;
            overflow-wrap: break-word;
            word-break: break-word;
        \x7d
        
        .stat-box h3 \x7b
            color: #8b6914;
            font-size: 0.7em;
            margin-bottom: 2px;
            text-transform: uppercase;
            letter-spacing: 0.3px;
        \x7d
        
        .ability-score \x7b
            font-size: 1.2em;
            font-weight: bold;
            color: #2c1810;
            margin: 2px 0;
        \x7d
        
        .ability-modifier \x7b
            font-size: 0.95em;
            color: #8b6914;
            font-weight: bold;
            margin: 2px 0;
        \x7d
        
        .save-box \x7b
            font-size: 0.85em;
            margin-top: 5px;
        \x7d
        
        .skill-item \x7b
            display: flex;
            justify-content: space-between;
            padding: 4px 0;
            border-bottom: 1px dotted #ccc;
        \x7d
        
        .skill-item label \x7b
            display: flex;
            align-items: center;
            gap: 5px;
            cursor: pointer;
        \x7d
        
        .section \x7b
            background: #f5f1e8;
            border: 2px solid #8b6914;
            border-radius: 6px;
            padding: 15px;
        \x7d
        
        .section h2 \x7b
            color: #8b6914;
            font-size: 1.3em;
            margin-bottom: 12px;
            padding-bottom: 8px;
            border-bottom: 2px solid #8b6914;
            text-transform: uppercase;
            letter-spacing: 1px;
        \x7d
        
        .page \x7b
            background: white;
            border: 3px solid #8b6914;
            border-radius: 24px;
            padding: 30px 20px;
            margin: 30px auto;
            max-width: 900px;
            box-shadow: 0 4px 20px rgba(0,0,0,0.1);
            box-sizing: border-box;
            width: 100%;
        \x7d
        
        .page-layout \x7b
            display: grid;
            grid-template-columns: 250px 1fr;
            gap: 20px;
            margin-bottom: 20px;
        \x7d
        
        .hp-box \x7b
            text-align: center;
            padding: 15px;
            background: white;
            border-radius: 4px;
            margin-bottom: 10px;
        \x7d
        
        .hp-box .hp-total \x7b
            font-size: 2em;
            font-weight: bold;
            color: #c12727;
        \x7d
        
        .hp-box .hp-current \x7b
            font-size: 1.5em;
            color: #2c1810;
        \x7d
        
        .hp-details \x7b
            display: flex;
            justify-content: space-around;
            margin-top: 10px;
            font-size: 0.9em;
        \x7d
        
        .features-list, .feats-list, .inventory-list \x7b
            list-style: none;
        \x7d
        
        .features-list li, .feats-list li \x7b
            padding: 6px 0;
            border-bottom: 1px dotted #ccc;
        \x7d
        
        .inventory-list li \x7b
            padding: 6px 0;
            display: flex;
            justify-content: space-between;
            gap: 12px;
            border-bottom: 1px dotted #ccc;
            white-space: normal;
        \x7d
        
        .spell-slot-level \x7b
            display: flex;
            align-items: center;
            gap: 6px;
            margin-bottom: 6px;
        \x7d
        
        .spell-slot-level strong \x7b
            min-width: 70px;
            font-size: 0.9em;
            color: #8b6914;
        \x7d
        
        .spell-slot-bubbles \x7b
            display: flex;
            gap: 4px;
            flex-wrap: wrap;
        \x7d
        
        .spell-description \x7b
            font-size: 0.9em;
            color: #333;
            margin-top: 6px;
            padding-top: 6px;
            border-top: 1px dotted #ccc;
            word-wrap: break-word;
            overflow-wrap: break-word;
            white-space: normal;
        \x7d
        
        .coins \x7b
            display: flex;
            gap: 15px;
            justify-content: center;
            flex-wrap: wrap;
            padding: 10px;
        \x7d
        
        .coin-item \x7b
            text-align: center;
            padding: 8px 15px;
            background: white;
            border-radius: 4px;
            border: 1px solid #8b6914;
        \x7d
        
        .coin-item .amount \x7b
            font-size: 1.3em;
            font-weight: bold;
            color: #8b6914;
            margin-top: 8px;
        \x7d
        
        .coin-item input[type=\"text\"] \x7b
            width: 80px;
            padding: 6px;
            border: 1px solid #8b6914;
            border-radius: 3px;
            text-align: center;
            font-size: 1.1em;
            font-weight: bold;
            color: #8b6914;
            margin-top: 8px;
        \x7d
        
        .spell-level-toggle \x7b
            background: white;
            border: 2px solid #8b6914;
            border-radius: 4px;
            padding: 12px;
            margin-bottom: 10px;
            cursor: pointer;
            display: flex;
            justify-content: space-between;
            align-items: center;
            user-select: none;
            transition: background-color 0.2s;
        \x7d
        
        .spell-level-toggle:hover \x7b
            background-color: #f5f1e8;
        \x7d
        
        .spell-level-toggle h3 \x7b
            color: #8b6914;
            font-size: 1.1em;
            margin: 0;
        \x7d
        
        .spell-level-content \x7b
            display: none;
        \x7d
        
        .spell-level-content.active \x7b
            display: block;
        \x7d
        
        @media (max-width: 900px) \x7b
            body \x7b
                padding: 8px;
            \x7d
            
            .character-sheet \x7b
                padding: 10px;
                border: 2px solid #8b6914;
            \x7d
            
            .header h1 \x7b
                font-size: 1.3em;
                margin-bottom: 8px;
            \x7d
            
            .header-info \x7b
                grid-template-columns: 1fr;
                gap: 6px;
            \x7d
            
            .page-layout \x7b
                grid-template-columns: 1fr !important;
                gap: 12px !important;
            \x7d
            
            .stat-box \x7b
                padding: 2px 5px;
                margin-bottom: 2px;
            \x7d
            
            .section \x7b
                padding: 8px;
            \x7d
            
            .section h2 \x7b
                font-size: 1em;
                margin-bottom: 8px;
            \x7d
            
            .page \x7b
                border: 2px solid #8b6914;
                padding: 12px 8px;
                margin: 15px 0;
            \x7d
        \x7d
        
        @media (max-width: 600px) \x7b
            html \x7b
                font-size: 14px;
            \x7d
            
            body \x7b
                padding: 4px;
                margin: 0;
            \x7d
            
            .character-sheet \x7b
                padding: 6px;
                border: 1px solid #8b6914;
            \x7d
            
            .header h1 \x7b
                font-size: 1.1em;
                margin: 0;
            \x7d
            
            .page \x7b
                border: 1px solid #8b6914;
                padding: 8px;
                margin: 10px 0;
            \x7d
        \x7d
    </style>
</head>
<body>
    <div class=\"character-sheet\">
        <div class=\"header\">
            <h1>"

/-- Static HTML fragment of the render stage. -/
def headChunk3 : String :=
  "</h1>
            <div class=\"header-info\">
"

/-- Static HTML fragment of the render stage. -/
def raceChunkA : String :=
  "                <div><strong>Race:</strong> "

/-- Static HTML fragment of the render stage. -/
def raceChunkB : String :=
  "</div>
"

/-- Static HTML fragment of the render stage. -/
def classesChunkA : String :=
  "                <div><strong>Class & Level:</strong> "

/-- Static HTML fragment of the render stage. -/
def classesChunkB : String :=
  "</div>
"

/-- Static HTML fragment of the render stage. -/
def backgroundChunkA : String :=
  "                <div><strong>Background:</strong> "

/-- Static HTML fragment of the render stage. -/
def backgroundChunkB : String :=
  "</div>
"

/-- Static HTML fragment of the render stage. -/
def alignmentChunkA : String :=
  "                <div><strong>Alignment:</strong> "

/-- Static HTML fragment of the render stage. -/
def alignmentChunkB : String :=
  "</div>
"

/-- Static HTML fragment of the render stage. -/
def profChunkA : String :=
  "                <div><strong>Proficiency Bonus:</strong> "

/-- Static HTML fragment of the render stage. -/
def profChunkB : String :=
  "</div>
"

/-- Static HTML fragment of the render stage. -/
def sidebarOpenChunk : String :=
  "            </div>
        </div>
        
        <div class=\"page\">
            <div class=\"page-layout\">
                <div class=\"sidebar\">
"

/-- Static HTML fragment of the render stage. -/
def statBoxChunk1 : String :=
  "                    <div class=\"stat-box\">
                        <h3>"

/-- Static HTML fragment of the render stage. -/
def statBoxChunk2 : String :=
  "</h3>
                        <div class=\"ability-score\">"

/-- Static HTML fragment of the render stage. -/
def statBoxChunk3 : String :=
  "</div>
                        <div class=\"ability-modifier\">"

/-- Static HTML fragment of the render stage. -/
def statBoxChunk4 : String :=
  "</div>
                        <div class=\"save-box\">
                            SAVE "

/-- Static HTML fragment of the render stage. -/
def statBoxChunk5 : String :=
  " "

/-- Static HTML fragment of the render stage. -/
def statBoxChunk6 : String :=
  "
                        </div>
                    </div>
"

/-- Static HTML fragment of the render stage. -/
def skillsHeaderChunk : String :=
  "                    <div class=\"stat-box\">
                        <h3>Skills</h3>
                        <div style=\"text-align: left; font-size: 0.85em;\">
"

/-- Static HTML fragment of the render stage. -/
def skillItemChunk1 : String :=
  "                            <div class=\"skill-item\">
                                <span>"

/-- Static HTML fragment of the render stage. -/
def skillItemChunk2 : String :=
  " "

/-- Static HTML fragment of the render stage. -/
def skillItemChunk3 : String :=
  "</span>
                                <span>"

/-- Static HTML fragment of the render stage. -/
def skillItemChunk4 : String :=
  "</span>
                            </div>
"

/-- Static HTML fragment of the render stage. -/
def hpChunk1 : String :=
  "                        </div>
                    </div>
                </div>
                
                <div style=\"display: grid; grid-template-columns: 1fr 1fr; gap: 15px;\">
                    <div class=\"section\">
                        <h2>Hit Points</h2>
                        <div class=\"hp-box\">
                            <div class=\"hp-total\">"

/-- Static HTML fragment of the render stage. -/
def hpChunk2 : String :=
  "</div>
                            <div class=\"hp-current\">Current HP</div>
                            <div class=\"hp-details\">
                                <div style=\"display: flex; align-items: center; gap: 10px;\">
                                    <span>Wounds:</span>
                                    <input type=\"text\" value=\x27"

/-- Static HTML fragment of the render stage. -/
def hpChunk3 : String :=
  "\x27 style=\"width: 60px; padding: 4px; border: 1px solid #8b6914; text-align: center;\">
                                </div>
                                <div style=\"display: flex; align-items: center; gap: 10px;\">
                                    <span>Temp:</span>
                                    <input type=\"text\" value=\x27"

/-- Static HTML fragment of the render stage. -/
def hpChunk4 : String :=
  "\x27 style=\"width: 60px; padding: 4px; border: 1px solid #8b6914; text-align: center;\">
                                </div>
                            </div>
                        </div>
                    </div>
                    
                    <div class=\"section\">
                        <h2>Combat Stats</h2>
                        <div style=\"text-align: center; padding: 15px;\">
                            <div style=\"margin-bottom: 15px;\">
                                <strong>Armor Class:</strong>
                                <div style=\"font-size: 1.8em; font-weight: bold; color: #8b6914;\">"

/-- Static HTML fragment of the render stage. -/
def hpChunk5 : String :=
  "</div>
                            </div>
                            <div style=\"margin-bottom: 15px;\">
                                <strong>Initiative:</strong>
                                <div style=\"font-size: 1.5em; font-weight: bold; color: #8b6914;\">"

/-- Static HTML fragment of the render stage. -/
def hpChunk6 : String :=
  "</div>
                            </div>
                            <div>
                                <strong>Speed:</strong>
                                <div style=\"font-size: 1.5em; font-weight: bold; color: #8b6914;\">"

/-- Static HTML fragment of the render stage. -/
def hpChunk7 : String :=
  " ft</div>
                            </div>
                        </div>
                    </div>
                    
                    <div class=\"section\">
                        <h2>Features</h2>
                        <ul class=\"features-list\">
"

/-- Static HTML fragment of the render stage. -/
def featureItemChunk1 : String :=
  "                            <li><strong>"

/-- Static HTML fragment of the render stage. -/
def featureItemChunk2 : String :=
  "</strong> (Lvl "

/-- Static HTML fragment of the render stage. -/
def featureItemChunk3 : String :=
  ")</li>
"

/-- Static HTML fragment of the render stage. -/
def noFeaturesChunk : String :=
  "                            <li><em>No features</em></li>
"

/-- Static HTML fragment of the render stage. -/
def featsHeaderChunk : String :=
  "                        </ul>
                    </div>
                    
                    <div class=\"section\">
                        <h2>Feats</h2>
                        <ul class=\"feats-list\">
"

/-- Static HTML fragment of the render stage. -/
def featItemChunk1 : String :=
  "                            <li><strong>"

/-- Static HTML fragment of the render stage. -/
def featItemChunk2 : String :=
  "</strong></li>
"

/-- Static HTML fragment of the render stage. -/
def noFeatsChunk : String :=
  "                            <li><em>No feats</em></li>
"

/-- Static HTML fragment of the render stage. -/
def equipHeaderChunk : String :=
  "                        </ul>
                    </div>
                </div>
            </div>
        </div>
        
        <div class=\"page\">
            <div class=\"section\">
                <h2>Equipment</h2>
                <ul class=\"inventory-list\">
"

/-- Static HTML fragment of the render stage. -/
def invItemChunk1 : String :=
  "                    <li>
                        <span>"

/-- Static HTML fragment of the render stage. -/
def invItemChunk2 : String :=
  "</span>
                    </li>
"

/-- Static HTML fragment of the render stage. -/
def noEquipChunk : String :=
  "                    <li><em>No equipment</em></li>
"

/-- Static HTML fragment of the render stage. -/
def wealthHeaderChunk : String :=
  "                </ul>
            </div>
            
            <div class=\"section\">
                <h2>Wealth</h2>
                <div class=\"coins\">
"

/-- Static HTML fragment of the render stage. -/
def coinItemChunk1 : String :=
  "                    <div class=\"coin-item\">
                        <strong>"

/-- Static HTML fragment of the render stage. -/
def coinItemChunk2 : String :=
  "</strong>
                        <input type=\"text\" value=\""

/-- Static HTML fragment of the render stage. -/
def coinItemChunk3 : String :=
  "\" />
                    </div>
"

/-- Static HTML fragment of the render stage. -/
def wealthCloseChunk : String :=
  "                </div>
            </div>
        </div>
        
        <div class=\"page\">
"

/-- Static HTML fragment of the render stage. -/
def slotsHeaderChunk : String :=
  "            <div class=\"section\">
                <h2>Spell Slots</h2>
                <div style=\"display: grid; grid-template-columns: 1fr 1fr; gap: 30px;\">
"

/-- Static HTML fragment of the render stage. -/
def colOpenChunk : String :=
  "                    <div>
"

/-- Static HTML fragment of the render stage. -/
def slotLevelChunk1 : String :=
  "                        <div class=\"spell-slot-level\">
                            <strong>Level "

/-- Static HTML fragment of the render stage. -/
def slotLevelChunk2 : String :=
  ":</strong>
                            <div class=\"spell-slot-bubbles\">
"

/-- Static HTML fragment of the render stage. -/
def checkboxChunk1 : String :=
  "                                <input type=\"checkbox\" "

/-- Static HTML fragment of the render stage. -/
def checkboxChunk2 : String :=
  ">
"

/-- Static HTML fragment of the render stage. -/
def slotLevelCloseChunk : String :=
  "                            </div>
                        </div>
"

/-- Static HTML fragment of the render stage. -/
def colSwitchChunk : String :=
  "                    </div>
                    <div>
"

/-- Static HTML fragment of the render stage. -/
def slotsCloseChunk : String :=
  "                    </div>
                </div>
            </div>
"

/-- Static HTML fragment of the render stage. -/
def spellsHeaderChunk : String :=
  "            <div class=\"section\">
                <h2>Spells</h2>
"

/-- Static HTML fragment of the render stage. -/
def toggleChunk1 : String :=
  "                <div class=\"spell-level-toggle\" onclick=\"toggleSpell(this)\">
                    <h3>Level "

/-- Static HTML fragment of the render stage. -/
def toggleChunk2 : String :=
  " ("

/-- Static HTML fragment of the render stage. -/
def toggleChunk3 : String :=
  " spells)</h3>
                    <span>▼</span>
                </div>
                <div class=\"spell-level-content\">
"

/-- Static HTML fragment of the render stage. -/
def spellCardChunk1 : String :=
  "                    <div style=\"background: #f5f1e8; padding: 8px; border-radius: 3px; border-left: 3px solid #8b6914; margin-bottom: 8px;\">
                        <div><strong>"

/-- Static HTML fragment of the render stage. -/
def spellCardChunk2 : String :=
  " "

/-- Static HTML fragment of the render stage. -/
def spellCardChunk3 : String :=
  "</strong></div>
"

/-- Static HTML fragment of the render stage. -/
def schoolChunk1 : String :=
  "                        <div style=\"font-size: 0.85em;\"><strong>School:</strong> "

/-- Static HTML fragment of the render stage. -/
def schoolChunk2 : String :=
  "</div>
"

/-- Static HTML fragment of the render stage. -/
def descChunk1 : String :=
  "                        <div class=\"spell-description\">"

/-- Static HTML fragment of the render stage. -/
def descChunk2 : String :=
  "</div>
"

/-- Static HTML fragment of the render stage. -/
def cardCloseChunk : String :=
  "                    </div>
"

/-- Static HTML fragment of the render stage. -/
def contentCloseChunk : String :=
  "                </div>
"

/-- Static HTML fragment of the render stage. -/
def scriptCloseChunk : String :=
  "                <script>
                function toggleSpell(elem) \x7b
                    const content = elem.nextElementSibling;
                    content.classList.toggle(\x27active\x27);
                \x7d
                </script>
            </div>
"

/-- Static HTML fragment of the render stage. -/
def finalCloseChunk : String :=
  "        </div>
    </div>
</body>
</html>"



/-- The ValueError message Python int() raises on a bad literal; repr of the
    offending string modeled for strings without quotes or backslashes. -/
def invalidIntMsg (s : String) : String :=
  "invalid literal for int() with base 10: \x27" ++ s ++ "\x27"

/-- Models an int() call in the render stage: the parsed value, or the
    ValueError that propagates to the outer handler. -/
def pyIntE (s : String) : Except String Int :=
  match pyInt s with
  | some v => Except.ok v
  | none => Except.error (invalidIntMsg s)

/-- Title text: the escaped name, or Unknown when falsy (source line 324). -/
def titleName (name : String) : String :=
  if !name.isEmpty then escape_html name else "Unknown"

/-- Heading text: the escaped name, or a placeholder (source line 708). -/
def h1Name (name : String) : String :=
  if !name.isEmpty then escape_html name else "Character Name"

/-- The optional race line of the header (source lines 712-716). -/
def raceBlock (race subrace : String) : String :=
  if !race.isEmpty then
    let race_display := race ++ (if !subrace.isEmpty then " (" ++ subrace ++ ")" else "")
    raceChunkA ++ escape_html race_display ++ raceChunkB
  else ""

/-- The optional class and level line of the header (source lines
    718-720). -/
def classesBlock (classes_info : List ClassInfo) : String :=
  if !classes_info.isEmpty then
    let classes_str :=
      String.intercalate ", " (classes_info.map (fun c => c.name ++ " " ++ c.level))
    classesChunkA ++ escape_html classes_str ++ classesChunkB
  else ""

/-- The optional background line (source lines 722-723). -/
def backgroundBlock (background : String) : String :=
  if !background.isEmpty then
    backgroundChunkA ++ escape_html background ++ backgroundChunkB
  else ""

/-- The optional alignment line (source lines 725-726). -/
def alignmentBlock (alignment : String) : String :=
  if !alignment.isEmpty then
    alignmentChunkA ++ escape_html alignment ++ alignmentChunkB
  else ""

/-- The proficiency bonus line (source line 728). -/
def profBlock (prof_bonus : Int) : String :=
  profChunkA ++ format_modifier (toString prof_bonus) ++ profChunkB

/-- Upper-cases every character of a string. -/
def strUpper (s : String) : String :=
  ⟨s.data.map Char.toUpper⟩

/-- The ability display abbreviation: capitalized name, first three
    characters, upper-cased (source line 741). -/
def abilDisplay (abil_name : String) : String :=
  strUpper ⟨abil_name.data.take 3⟩

/-- One ability stat box, with render-time defaults for a missing ability
    entry (source lines 739-755). -/
def abilityBox (abilities : List (String × Ability)) (abil_name : String) : String :=
  let score := match dictGet abilities abil_name with | some a => a.score | none => "10"
  let bonus := match dictGet abilities abil_name with | some a => a.bonus | none => "0"
  let save := match dictGet abilities abil_name with | some a => a.save | none => "0"
  let is_prof := match dictGet abilities abil_name with | some a => a.saveprof | none => false
  statBoxChunk1 ++ abilDisplay abil_name ++ statBoxChunk2 ++ escape_html score
    ++ statBoxChunk3 ++ format_modifier bonus ++ statBoxChunk4 ++ format_modifier save
    ++ statBoxChunk5 ++ (if is_prof then "✓" else "") ++ statBoxChunk6

/-- The six ability boxes in fixed order (source lines 739-755). -/
def abilitiesSection (abilities : List (String × Ability)) : String :=
  String.join (ability_names.map (abilityBox abilities))

/-- One skill line (source lines 763-769). -/
def skillItem (skill : Skill) : String :=
  skillItemChunk1 ++ (if skill.prof then "●" else "○") ++ skillItemChunk2
    ++ escape_html skill.name ++ skillItemChunk3 ++ format_modifier skill.total
    ++ skillItemChunk4

/-- The skills box: its header followed by the items in list order (source
    lines 757-769). -/
def skillsSection (skills : List Skill) : String :=
  skillsHeaderChunk ++ String.join (skills.map skillItem)

/-- The hit point and combat stat stretch: the wound and temp values are
    interpolated raw into single-quoted value attributes, and initiative
    goes through format_modifier only (source lines 771-815). -/
def hpCombatSection (hp_total hp_wounds hp_temp ac_total initiative speed_total : String) : String :=
  hpChunk1 ++ escape_html hp_total ++ hpChunk2 ++ hp_wounds ++ hpChunk3 ++ hp_temp
    ++ hpChunk4 ++ escape_html ac_total ++ hpChunk5 ++ format_modifier initiative
    ++ hpChunk6 ++ escape_html speed_total ++ hpChunk7

/-- One feature line (source lines 817-819). -/
def featureItem (f : Feature) : String :=
  featureItemChunk1 ++ escape_html f.name ++ featureItemChunk2
    ++ escape_html f.level ++ featureItemChunk3

/-- The features list body with its placeholder (source lines 817-823). -/
def featuresSection (features : List Feature) : String :=
  String.join (features.map featureItem)
    ++ (if features.isEmpty then noFeaturesChunk else "")

/-- One feat line (source line 834). -/
def featItem (f : Feat) : String :=
  featItemChunk1 ++ escape_html f.name ++ featItemChunk2

/-- The feats section with its placeholder (source lines 825-839). -/
def featsSection (feats : List Feat) : String :=
  featsHeaderChunk ++ String.join (feats.map featItem)
    ++ (if feats.isEmpty then noFeatsChunk else "")

/-- One inventory line; the multiplier suffix is added when the count is not
    the string 1 (source lines 853-858). -/
def invItem (item : Item) : String :=
  let count_text := if item.count != "1" then " x" ++ item.count else ""
  invItemChunk1 ++ escape_html item.name ++ escape_html count_text ++ invItemChunk2

/-- The equipment section with its placeholder (source lines 847-862). -/
def inventorySection (inventory : List Item) : String :=
  equipHeaderChunk ++ String.join (inventory.map invItem)
    ++ (if inventory.isEmpty then noEquipChunk else "")

/-- The fixed currency iteration order (source line 872). -/
def coin_order : List String := ["PP", "GP", "EP", "SP", "CP"]

/-- One currency box, substituting 0 for missing symbols (source lines
    873-879). -/
def coinItem (coins : List (String × String)) (coin_type : String) : String :=
  coinItemChunk1 ++ coin_type ++ coinItemChunk2
    ++ escape_html (coinGet coins coin_type "0") ++ coinItemChunk3

/-- The wealth section (source lines 867-886). -/
def coinsSection (coins : List (String × String)) : String :=
  wealthHeaderChunk ++ String.join (coin_order.map (coinItem coins)) ++ wealthCloseChunk

/-- The marker flags of one slot level: one checkbox per slot index below
    max, checked when the index is below used (source lines 905-907). -/
def markerFlags (max_slots used_slots : Int) : List Bool :=
  (List.range max_slots.toNat).map (fun i => decide (Int.ofNat i < used_slots))

/-- One checkbox marker (source line 907). -/
def checkboxHtml (checked : Bool) : String :=
  checkboxChunk1 ++ (if checked then "checked" else "") ++ checkboxChunk2

/-- One slot level line with its markers; the int() calls on max and used
    can raise (source lines 898-911). -/
def renderSlotLevel (e : SlotEntry) : Except String String := do
  let max_slots ← pyIntE e.max
  let used_slots ← pyIntE e.used
  pure (slotLevelChunk1 ++ e.level ++ slotLevelChunk2
    ++ String.join ((markerFlags max_slots used_slots).map checkboxHtml)
    ++ slotLevelCloseChunk)

/-- Slot entries sorted by the integer value of their level keys, modeling
    sorted with key int over the dict keys, which are distinct (source line
    893). -/
def slotKeyLE (a b : Int × SlotEntry) : Prop := a.1 ≤ b.1

instance : DecidableRel slotKeyLE := fun a b => inferInstanceAs (Decidable (a.1 ≤ b.1))

instance : IsTotal (Int × SlotEntry) slotKeyLE := ⟨fun a b => le_total a.1 b.1⟩

instance : IsTrans (Int × SlotEntry) slotKeyLE := ⟨fun _ _ _ h1 h2 => le_trans h1 h2⟩

def sortSlotEntries (slots : List SlotEntry) : Except String (List (Int × SlotEntry)) := do
  let keyed ← slots.mapM (fun e => do
    let k ← pyIntE e.level
    pure (k, e))
  pure (List.insertionSort slotKeyLE keyed)

/-- The spell slot section: empty when no level is populated, otherwise the
    sorted levels split into two columns at the midpoint (source lines
    888-932). -/
def spellSlotsSection (slots : List SlotEntry) : Except String String :=
  if slots.isEmpty then pure ""
  else do
    let sortedE ← sortSlotEntries slots
    let spell_levels := sortedE.map (fun ke => ke.2)
    let mid_point := (spell_levels.length + 1) / 2
    let colA ← (spell_levels.take mid_point).mapM renderSlotLevel
    let colB ← (spell_levels.drop mid_point).mapM renderSlotLevel
    pure (slotsHeaderChunk ++ colOpenChunk ++ String.join colA ++ colSwitchChunk
      ++ String.join colB ++ slotsCloseChunk)

/-- The group label of a spell: its level, with empty and zero mapping to
    Cantrip (source line 941). -/
def groupKeyOf (s : Spell) : String :=
  if !s.level.isEmpty && s.level != "0" then s.level else "Cantrip"

/-- First-occurrence order of a list of keys with an accumulator of keys
    already emitted: the key order of a Python dict built by repeated
    insertion (source lines 939-944). -/
def dedupFirstAux (seen : List String) : List String → List String
  | [] => []
  | k :: rest =>
    if seen.contains k then dedupFirstAux seen rest
    else k :: dedupFirstAux (k :: seen) rest

/-- First-occurrence order of a list of keys. -/
def dedupFirst (l : List String) : List String :=
  dedupFirstAux [] l

/-- The sort key for group labels: Cantrip first, then numeric value with
    non-digit labels keyed 0 (source line 946). -/
def groupSortKey (x : String) : Nat × Nat :=
  (if x == "Cantrip" then 0 else 1, if pyIsDigit x then digitsVal x.data else 0)

/-- The order on group labels the key tuple of source line 946 induces. -/
def groupLE (a b : String) : Prop :=
  (groupSortKey a).1 < (groupSortKey b).1
    ∨ ((groupSortKey a).1 = (groupSortKey b).1
        ∧ (groupSortKey a).2 ≤ (groupSortKey b).2)

instance : DecidableRel groupLE := fun a b =>
  inferInstanceAs (Decidable (_ ∨ _))

instance : IsTotal String groupLE := by
  constructor
  intro a b
  rcases Nat.lt_trichotomy (groupSortKey a).1 (groupSortKey b).1 with h | h | h
  · exact Or.inl (Or.inl h)
  · rcases Nat.le_total (groupSortKey a).2 (groupSortKey b).2 with hn | hn
    · exact Or.inl (Or.inr ⟨h, hn⟩)
    · exact Or.inr (Or.inr ⟨h.symm, hn⟩)
  · exact Or.inr (Or.inl h)

instance : IsTrans String groupLE := by
  constructor
  rintro a b c (h1 | ⟨h1e, h1n⟩) (h2 | ⟨h2e, h2n⟩)
  · exact Or.inl (h1.trans h2)
  · exact Or.inl (h2e ▸ h1)
  · exact Or.inl (h1e ▸ h2)
  · exact Or.inr ⟨h1e.trans h2e, h1n.trans h2n⟩

/-- One spell card; the description is interpolated raw (source lines
    956-968). -/
def spellCard (spell : Spell) : String :=
  let prepared_mark := if !spell.prepared.isEmpty && spell.prepared != "0" then "●" else "○"
  spellCardChunk1 ++ prepared_mark ++ spellCardChunk2 ++ escape_html spell.name
    ++ spellCardChunk3
    ++ (if !spell.school.isEmpty then schoolChunk1 ++ escape_html spell.school ++ schoolChunk2 else "")
    ++ (if !spell.description.isEmpty then descChunk1 ++ spell.description ++ descChunk2 else "")
    ++ cardCloseChunk

/-- One collapsible level group: its toggle header and its cards in spell
    list order (source lines 948-970). -/
def spellGroup (spells : List Spell) (level : String) : String :=
  let level_spells := spells.filter (fun s => groupKeyOf s == level)
  toggleChunk1 ++ escape_html level ++ toggleChunk2 ++ toString level_spells.length
    ++ toggleChunk3 ++ String.join (level_spells.map spellCard) ++ contentCloseChunk

/-- The spells section: groups in sorted label order, Cantrip first (source
    lines 934-979). -/
def spellsSection (spells : List Spell) : String :=
  if spells.isEmpty then ""
  else
    let level_order := List.insertionSort groupLE (dedupFirst (spells.map groupKeyOf))
    spellsHeaderChunk ++ String.join (level_order.map (spellGroup spells))
      ++ scriptCloseChunk

/-- The render stage: the full document text for a character model,
    assembled exactly as the incremental appends of source lines 318-984;
    failure is the ValueError a bad int() in the spell slot section
    raises. -/
def render_html (m : Character) : Except String String := do
  let slotsSec ← spellSlotsSection m.spell_slots
  pure (headChunk1 ++ titleName m.name ++ headChunk2 ++ h1Name m.name ++ headChunk3
    ++ raceBlock m.race m.subrace
    ++ classesBlock m.classes_info
    ++ backgroundBlock m.background
    ++ alignmentBlock m.alignment
    ++ profBlock m.prof_bonus
    ++ sidebarOpenChunk
    ++ abilitiesSection m.abilities
    ++ skillsSection m.skills
    ++ hpCombatSection m.hp_total m.hp_wounds m.hp_temp m.ac_total m.initiative m.speed_total
    ++ featuresSection m.features
    ++ featsSection m.feats
    ++ inventorySection m.inventory
    ++ coinsSection m.coins
    ++ slotsSec
    ++ spellsSection m.spells
    ++ finalCloseChunk)

/-- The message returned when the character record is missing (source line
    96). -/
def malformedMsg : String := "Error: No character data found in XML"

/-- Models parse_fgu_character_to_html on an already-parsed tree: the
    (html, error) pair of which exactly one side is set (source lines
    88-989). -/
def parse_fgu (root : Elem) : Option String × Option String :=
  match findPath root ["character"] with
  | none => (none, some malformedMsg)
  | some char =>
    match render_html (extractCharacter char) with
    | Except.ok html => (some html, none)
    | Except.error e => (none, some e)



/-! Helper lemmas shared by several claims. -/

/-- Folding the optional integer additions of the class loop equals summing
    the parsed levels with unparsable levels contributing zero. -/
theorem foldl_pyInt_add (f : Elem → Option Int) (l : List Elem) (acc : Int) :
    l.foldl (fun a x => match f x with | some v => a + v | none => a) acc
      = acc + (l.map (fun x => (f x).getD 0)).sum := by
  induction l generalizing acc with
  | nil => simp
  | cons hd tl ih =>
    simp only [List.foldl_cons, List.map_cons, List.sum_cons]
    cases h : f hd with
    | none => rw [ih]; simp
    | some v => rw [ih]; simp; ring

/-! Claim C2: the proficiency bonus derivation. The code never clamps: for
    total_level 0 it yields 2 + fdiv (-1) 4 = 1, not 2. -/

/-- Concrete character record with no classes: total level 0. -/
def c2Char : Elem := Elem.mk "character" [] none [] none

/-- Concrete root whose character record has total level 0. -/
def c2Root : Elem := Elem.mk "root" [] none [c2Char] none

/-- C2 counterexample: the claim that a total level at most 0 yields the
    clamped proficiency bonus 2 fails on the parsed input c2Root, whose
    extracted bonus is 1. -/
theorem c2_counterexample :
    ¬ (∀ (t c : Elem), findPath t ["character"] = some c →
        (extractCharacter c).total_level ≤ 0 → (extractCharacter c).prof_bonus = 2) := by
  intro h
  have h1 := h c2Root c2Char rfl (by decide)
  exact absurd h1 (by decide)

/-- C2 amended: for every parsed input containing the character record, the
    derived proficiency bonus equals 2 + fdiv (total_level - 1) 4 for every
    total level, with no clamping (total level 0 yields 1), where the total
    level is the sum of the classes integer levels and a level that fails to
    parse contributes 0. -/
theorem c2_prof_bonus_formula (char : Elem) :
    (extractCharacter char).prof_bonus
        = 2 + ((extractCharacter char).total_level - 1).fdiv 4
      ∧ (extractCharacter char).total_level
        = ((childrenOf char "classes").map
            (fun cls => (pyInt (safe_get_text (some cls) ["level"] "")).getD 0)).sum := by
  refine ⟨rfl, ?_⟩
  show totalLevelOf char = _
  rw [totalLevelOf, foldl_pyInt_add (fun cls => pyInt (safe_get_text (some cls) ["level"] ""))]
  simp

/-! Claim C9: the class level field. The model keeps the raw source string
    (default empty), not an integer defaulted to 0. -/

/-- Concrete character record whose single class has the unparsable level
    x. -/
def c9Char : Elem :=
  Elem.mk "character" [] none
    [Elem.mk "classes" [] none
      [Elem.mk "class" [] none
        [Elem.mk "name" [] (some "N") [] none,
         Elem.mk "level" [] (some "x") [] none] none] none] none

/-- C9 counterexample: the source level x fails int() parsing, yet the
    extracted class entry keeps the string x rather than the integer 0 the
    claim states. -/
theorem c9_counterexample :
    pyInt (safe_get_text (findPath c9Char ["classes", "class"]) ["level"] "") = none
      ∧ (extractCharacter c9Char).classes_info.map (fun c => c.level) = ["x"]
      ∧ ¬ (extractCharacter c9Char).classes_info.map (fun c => c.level)
          = [toString (0 : Int)] := by
  refine ⟨rfl, rfl, ?_⟩
  decide

/-- C9 amended: every class entry keeps the raw level string from the
    source, with the empty string as the missing-field default; only the
    derived total level treats an unparsable level as 0. -/
theorem c9_class_levels (char : Elem) :
    (extractCharacter char).classes_info
        = (childrenOf char "classes").map (fun cls =>
            ClassInfo.mk (safe_get_text (some cls) ["name"] "")
              (safe_get_text (some cls) ["level"] "")
              (safe_get_text (some cls) ["specialization"] ""))
      ∧ (extractCharacter char).total_level
        = ((childrenOf char "classes").map
            (fun cls => (pyInt (safe_get_text (some cls) ["level"] "")).getD 0)).sum := by
  refine ⟨rfl, ?_⟩
  show totalLevelOf char = _
  rw [totalLevelOf, foldl_pyInt_add (fun cls => pyInt (safe_get_text (some cls) ["level"] ""))]
  simp



/-! Claim C8: skill ordering. The sort is stable and non-strict, so inputs
    with duplicate skill names refute the strictly-ascending wording; the
    amended claim is ascending (non-strict) name order. -/

/-- Concrete skill entry named A. -/
def c8Skill : Elem :=
  Elem.mk "skill" [] none [Elem.mk "name" [] (some "A") [] none] none

/-- Concrete character record with two skills that share the name A. -/
def c8Char : Elem :=
  Elem.mk "character" [] none
    [Elem.mk "skilllist" [] none [c8Skill, c8Skill] none] none

/-- C8 counterexample: with two skills of equal name the rendered order is
    not strictly ascending. -/
theorem c8_counterexample :
    ((extractCharacter c8Char).skills).map (fun s => s.name) = ["A", "A"]
      ∧ ¬ ((extractCharacter c8Char).skills).Pairwise
          (fun a b => pyStrLe a.name b.name = true ∧ a.name ≠ b.name) := by
  refine ⟨rfl, ?_⟩
  decide

/-- C8 amended: for every input, the skill entries the Renderer iterates are
    in ascending (non-strict) name order, whatever their source order, and
    the skills box is their concatenation in that order. -/
theorem c8_skills_sorted (char : Elem) :
    ((extractCharacter char).skills).Pairwise skillLE
      ∧ ((extractCharacter char).skills).Perm (rawSkillsOf char)
      ∧ skillsSection ((extractCharacter char).skills)
        = skillsHeaderChunk ++ String.join (((extractCharacter char).skills).map skillItem) :=
  ⟨List.sorted_insertionSort skillLE (rawSkillsOf char),
   List.perm_insertionSort skillLE (rawSkillsOf char),
   rfl⟩

/-! Claim C6: the spell list filter and order. -/

/-- C6: the extracted spell sequence is a permutation of the spell records
    of exactly the qualifying power entries, and it is sorted by the level
    key (numeric level, non-numeric as 99) with ties ordered by name. -/
theorem c6_spell_filter_sort (char : Elem) :
    ((extractCharacter char).spells).Perm
        (((childrenOf char "powers").filter spellPred).map mkSpell)
      ∧ ((extractCharacter char).spells).Pairwise spellLE :=
  ⟨List.perm_insertionSort spellLE _, List.sorted_insertionSort spellLE _⟩

/-! Claim C10: the extracted sorcery points never influence the rendered
    output. -/

/-- A character model with its sorcery point data removed. -/
def eraseSorcery (m : Character) : Character := { m with sorcery_points := none }

/-- C10: two inputs whose extracted models agree outside the sorcery-point
    data render to identical document text. -/
theorem c10_sorcery_noninterference (c1 c2 : Elem)
    (h : eraseSorcery (extractCharacter c1) = eraseSorcery (extractCharacter c2)) :
    render_html (extractCharacter c1) = render_html (extractCharacter c2) := by
  have e1 : render_html (extractCharacter c1)
      = render_html (eraseSorcery (extractCharacter c1)) := rfl
  have e2 : render_html (extractCharacter c2)
      = render_html (eraseSorcery (extractCharacter c2)) := rfl
  rw [e1, h, ← e2]

/-- Concrete character record carrying sorcery points 3 with 1 used. -/
def c10CharA : Elem :=
  Elem.mk "character" [] none
    [Elem.mk "powers" [] none
      [Elem.mk "power" [] none
        [Elem.mk "name" [] (some "Sorcery Points") [] none,
         Elem.mk "prepared" [] (some "3") [] none,
         Elem.mk "locked" [] (some "1") [] none] none] none] none

/-- Concrete character record with no sorcery point data. -/
def c10CharB : Elem := Elem.mk "character" [] none [] none

/-- C10 witness: the two concrete models differ exactly in their sorcery
    point data, and the rendered documents coincide. -/
theorem c10_witness :
    (extractCharacter c10CharA).sorcery_points = some ("3", "1")
      ∧ (extractCharacter c10CharB).sorcery_points = none
      ∧ render_html (extractCharacter c10CharA) = render_html (extractCharacter c10CharB) :=
  ⟨rfl, rfl, c10_sorcery_noninterference c10CharA c10CharB (by decide)⟩




/-! Claim C5: inline-markup flattening. The claim wording omits the three
    strips the code performs (leading text, concatenation, final result);
    the dedup pass itself matches the claim. -/

/-- String.join over a foldl with a general accumulator. -/
theorem string_foldl_append (l : List String) : ∀ acc : String,
    l.foldl (fun r s => r ++ s) acc = acc ++ l.foldl (fun r s => r ++ s) "" := by
  induction l with
  | nil => intro acc; simp
  | cons hd tl ih =>
    intro acc
    simp only [List.foldl_cons]
    rw [ih (acc ++ hd), ih ("" ++ hd), String.empty_append, String.append_assoc]

/-- String.join distributes over cons. -/
theorem string_join_cons (a : String) (l : List String) :
    String.join (a :: l) = a ++ String.join l := by
  show (a :: l).foldl (fun r s => r ++ s) "" = _
  rw [List.foldl_cons, string_foldl_append, String.empty_append]
  rfl

/-- String.join distributes over append. -/
theorem string_join_append (l1 l2 : List String) :
    String.join (l1 ++ l2) = String.join l1 ++ String.join l2 := by
  induction l1 with
  | nil => simp [String.join]
  | cons hd tl ih =>
    rw [List.cons_append, string_join_cons, string_join_cons, ih, String.append_assoc]

/-- The recursive child serialization equals the join of the mapped
    serializations, the form the parts list of formatted_html uses. -/
theorem tostringHtmlList_eq (l : List Elem) :
    tostringHtmlList l = String.join (l.map tostringHtml) := by
  induction l with
  | nil => rfl
  | cons e es ih =>
    show tostringHtml e ++ tostringHtmlList es = _
    rw [List.map_cons, string_join_cons, ih]

/-- Modelled from the claim wording of C5: the duplicate-line filter that
    drops a line exactly when its trimmed content equals the trimmed
    content of some earlier line of the block, keeping blank lines and
    never recording them. -/
def dedupSpecAux (earlier : List String) : List String → List String
  | [] => []
  | l :: rest =>
    if (pyStrip l).isEmpty then l :: dedupSpecAux (earlier ++ [l]) rest
    else if (earlier.map pyStrip).contains (pyStrip l) then dedupSpecAux (earlier ++ [l]) rest
    else l :: dedupSpecAux (earlier ++ [l]) rest

/-- The seen-set loop of the code drops exactly the lines the
    earlier-lines formulation of the claim drops. -/
theorem dedup_eq_aux : ∀ (l seen earlier : List String),
    (∀ s : String, s ≠ "" → (s ∈ seen ↔ s ∈ earlier.map pyStrip)) →
    dedupLines seen l = dedupSpecAux earlier l := by
  intro l
  induction l with
  | nil => intro seen earlier _; rfl
  | cons line rest ih =>
    intro seen earlier hinv
    simp only [dedupLines, dedupSpecAux, List.contains, List.elem_eq_mem]
    by_cases he : pyStrip line = ""
    · have heb : (pyStrip line).isEmpty = true := (String.isEmpty_iff _).mpr he
      simp only [heb, Bool.not_true, Bool.false_and, Bool.false_eq_true, ite_false, ite_true]
      have hrec : dedupLines seen rest = dedupSpecAux (earlier ++ [line]) rest := by
        apply ih
        intro s hs
        rw [hinv s hs]
        simp only [List.map_append, List.map_cons, List.map_nil, List.mem_append,
          List.mem_singleton]
        constructor
        · exact fun h => Or.inl h
        · rintro (h | h)
          · exact h
          · exact absurd (h.trans he) hs
      rw [hrec]
    · have heb : (pyStrip line).isEmpty = false := by
        rw [Bool.eq_false_iff]
        intro hx
        exact he ((String.isEmpty_iff _).mp hx)
      by_cases hc : pyStrip line ∈ seen
      · have hc2 : pyStrip line ∈ earlier.map pyStrip := (hinv _ he).mp hc
        simp only [heb, Bool.not_false, Bool.true_and, decide_eq_true hc,
          decide_eq_true hc2, Bool.false_eq_true, ite_false, ite_true]
        apply ih
        intro s hs
        rw [hinv s hs]
        simp only [List.map_append, List.map_cons, List.map_nil, List.mem_append,
          List.mem_singleton]
        constructor
        · exact fun h => Or.inl h
        · rintro (h | h)
          · exact h
          · exact h ▸ hc2
      · have hc2 : pyStrip line ∉ earlier.map pyStrip := fun hx => hc ((hinv _ he).mpr hx)
        simp only [heb, Bool.not_false, Bool.true_and, decide_eq_false hc,
          decide_eq_false hc2, Bool.false_eq_true, ite_false, ite_true]
        have hrec : dedupLines (pyStrip line :: seen) rest
            = dedupSpecAux (earlier ++ [line]) rest := by
          apply ih
          intro s hs
          simp only [List.mem_cons, List.map_append, List.map_cons, List.map_nil,
            List.mem_append, List.mem_singleton, hinv s hs]
          tauto
        rw [hrec]

/-- Modelled from the claim wording of C5: the element's own leading text
    concatenated with the serialized markup of each child in document
    order, split on line boundaries, with trimmed-duplicate lines dropped
    and blank lines kept, with no stripping anywhere. -/
def formattedHtmlSpec (e : Elem) : String :=
  String.intercalate "\n"
    (dedupSpecAux [] (pySplitNl ((e.text.getD "") ++ tostringHtmlList e.children)))

/-- Concrete element whose leading text repeats a line around a blank
    line. -/
def c5Elem : Elem := Elem.mk "description" [] (some "x\n\nx") [] none

/-- C5 counterexample: the code result differs from the claim formula on
    c5Elem: the code strips the result, dropping the trailing blank line,
    and returns the single line x, while the claim formula keeps the blank
    line. -/
theorem c5_counterexample :
    formatted_html (some c5Elem) ≠ formattedHtmlSpec c5Elem
      ∧ formatted_html (some c5Elem) = "x"
      ∧ formattedHtmlSpec c5Elem = "x\n" := by
  refine ⟨by decide, rfl, rfl⟩

/-- C5 amended: flattening equals the claim formula once the three strips
    of the code are added: the leading text is stripped, the concatenation
    is stripped before splitting, and the rejoined result is stripped
    again (which can drop blank lines at the edges). -/
theorem c5_formatted_html (e : Elem) :
    formatted_html (some e)
      = pyStrip (String.intercalate "\n"
          (dedupSpecAux []
            (pySplitNl (pyStrip (pyStrip (e.text.getD "") ++ tostringHtmlList e.children))))) := by
  have hjoin : String.join ((match e.text with
        | some t => if (pyStrip t).isEmpty then [] else [pyStrip t]
        | none => []) ++ e.children.map tostringHtml)
      = pyStrip (e.text.getD "") ++ tostringHtmlList e.children := by
    rw [string_join_append, tostringHtmlList_eq]
    cases ht : e.text with
    | none => rfl
    | some t =>
      show String.join (if (pyStrip t).isEmpty = true then [] else [pyStrip t])
            ++ String.join (e.children.map tostringHtml)
          = pyStrip t ++ String.join (e.children.map tostringHtml)
      by_cases hts : (pyStrip t).isEmpty = true
      · have h1 : pyStrip t = "" := (String.isEmpty_iff _).mp hts
        rw [if_pos hts, h1]
        rfl
      · rw [if_neg hts, string_join_cons, String.append_assoc]
        rfl
  show pyStrip (String.intercalate "\n" (dedupLines [] (pySplitNl (pyStrip (String.join _))))) = _
  rw [hjoin, dedup_eq_aux _ [] [] (by intro s hs; simp)]



/-! Claim C7: the spell slot columns and markers. -/

/-- Bind on a successful Except computation. -/
theorem except_bind_ok {α β : Type} (a : α) (f : α → Except String β) :
    (Except.ok a >>= f) = f a := rfl

/-- The keyed mapM of sortSlotEntries succeeds when every level key parses,
    keeps the entries in order, and pairs each entry with its parsed key. -/
theorem keyedMapM_ok : ∀ (slots : List SlotEntry),
    (∀ e ∈ slots, (pyInt e.level).isSome) →
    ∃ keyed : List (Int × SlotEntry),
      slots.mapM (fun e => do
        let k ← pyIntE e.level
        pure (k, e)) = (Except.ok keyed : Except String _)
      ∧ keyed.map (fun p => p.2) = slots
      ∧ ∀ p ∈ keyed, pyInt p.2.level = some p.1 := by
  intro slots
  induction slots with
  | nil =>
    intro _
    exact ⟨[], rfl, rfl, by simp⟩
  | cons hd tl ih =>
    intro h
    obtain ⟨k, hk⟩ := Option.isSome_iff_exists.mp (h hd (List.mem_cons_self _ _))
    obtain ⟨keyed, hmap, hsnd, hkeys⟩ := ih (fun e he => h e (List.mem_cons_of_mem _ he))
    have hE : pyIntE hd.level = Except.ok k := by rw [pyIntE, hk]
    refine ⟨(k, hd) :: keyed, ?_, ?_, ?_⟩
    · rw [List.mapM_cons]
      simp only [hE, hmap, except_bind_ok]
      rfl
    · simp [hsnd]
    · intro p hp
      rcases List.mem_cons.mp hp with h1 | h1
      · rw [h1]; exact hk
      · exact hkeys p h1

/-- One slot level renders successfully when its max and used counts
    parse. -/
theorem renderSlotLevel_ok (e : SlotEntry) (M U : Int)
    (hM : pyInt e.max = some M) (hU : pyInt e.used = some U) :
    renderSlotLevel e = Except.ok (slotLevelChunk1 ++ e.level ++ slotLevelChunk2
      ++ String.join ((markerFlags M U).map checkboxHtml) ++ slotLevelCloseChunk) := by
  have hME : pyIntE e.max = Except.ok M := by rw [pyIntE, hM]
  have hUE : pyIntE e.used = Except.ok U := by rw [pyIntE, hU]
  rw [renderSlotLevel, hME]
  simp only [except_bind_ok, hUE]
  rfl

/-- A column of slot levels renders successfully when every entry has
    parsable max and used counts. -/
theorem renderCol_ok : ∀ (l : List SlotEntry),
    (∀ e ∈ l, (pyInt e.max).isSome ∧ (pyInt e.used).isSome) →
    ∃ col : List String, l.mapM renderSlotLevel = Except.ok col := by
  intro l
  induction l with
  | nil => intro _; exact ⟨[], rfl⟩
  | cons hd tl ih =>
    intro h
    obtain ⟨hM, hU⟩ := h hd (List.mem_cons_self _ _)
    obtain ⟨M, hMe⟩ := Option.isSome_iff_exists.mp hM
    obtain ⟨U, hUe⟩ := Option.isSome_iff_exists.mp hU
    obtain ⟨col, hcol⟩ := ih (fun e he => h e (List.mem_cons_of_mem _ he))
    refine ⟨(slotLevelChunk1 ++ hd.level ++ slotLevelChunk2
      ++ String.join ((markerFlags M U).map checkboxHtml) ++ slotLevelCloseChunk) :: col, ?_⟩
    rw [List.mapM_cons, renderSlotLevel_ok hd M U hMe hUe]
    simp only [except_bind_ok, hcol]
    rfl

/-- Range mapped through a threshold test is a block of true markers then a
    block of false markers. -/
theorem range_map_decide_lt (n k : Nat) :
    (List.range n).map (fun i => decide (i < k))
      = List.replicate (min k n) true ++ List.replicate (n - min k n) false := by
  induction n with
  | zero => simp
  | succ m ih =>
    rw [List.range_succ, List.map_append, ih]
    by_cases h : m < k
    · have h1 : min k (m + 1) = m + 1 := by omega
      have h2 : min k m = m := by omega
      have h3 : decide (m < k) = true := by simp [h]
      simp only [h1, h2, h3, Nat.sub_self, List.replicate_zero, List.append_nil,
        List.map_cons, List.map_nil]
      rw [← List.replicate_succ']
    · have h1 : min k (m + 1) = k := by omega
      have h2 : min k m = k := by omega
      have h3 : decide (m < k) = false := by simp [h]
      have h4 : m + 1 - k = (m - k) + 1 := by omega
      simp only [h1, h2, h3, h4, List.map_cons, List.map_nil]
      rw [List.append_assoc, ← List.replicate_succ']

/-- The marker flags of a slot level: min used max checked markers followed
    by the remaining unchecked ones, max markers in total. -/
theorem markerFlags_eq (M U : Int) :
    markerFlags M U = List.replicate (min U.toNat M.toNat) true
      ++ List.replicate (M.toNat - min U.toNat M.toNat) false := by
  rw [markerFlags]
  have hf : (fun i : Nat => decide (Int.ofNat i < U)) = (fun i : Nat => decide (i < U.toNat)) := by
    funext i
    simp only [decide_eq_decide, Int.ofNat_eq_coe]
    omega
  rw [hf, range_map_decide_lt]

/-- C7: when at least one slot level is populated and all its counts parse,
    the section lists the levels sorted ascending by numeric key, splits
    them at the ceiling midpoint into two columns, and every level renders
    exactly max markers of which the first min used max are checked. -/
theorem c7_slot_columns (slots : List SlotEntry)
    (hne : slots ≠ [])
    (hkey : ∀ e ∈ slots, (pyInt e.level).isSome)
    (hnum : ∀ e ∈ slots, (pyInt e.max).isSome ∧ (pyInt e.used).isSome) :
    ∃ (sortedE : List (Int × SlotEntry)) (colA colB : List String),
      sortSlotEntries slots = Except.ok sortedE
      ∧ (sortedE.map (fun p => p.2)).Perm slots
      ∧ sortedE.Pairwise slotKeyLE
      ∧ (∀ p ∈ sortedE, pyInt p.2.level = some p.1)
      ∧ ((sortedE.map (fun p => p.2)).take ((slots.length + 1) / 2)).mapM renderSlotLevel
          = Except.ok colA
      ∧ ((sortedE.map (fun p => p.2)).drop ((slots.length + 1) / 2)).mapM renderSlotLevel
          = Except.ok colB
      ∧ spellSlotsSection slots
          = Except.ok (slotsHeaderChunk ++ colOpenChunk ++ String.join colA
              ++ colSwitchChunk ++ String.join colB ++ slotsCloseChunk)
      ∧ (slots.length + 1) / 2 = slots.length - slots.length / 2
      ∧ (∀ (e : SlotEntry) (M U : Int), pyInt e.max = some M → pyInt e.used = some U →
          renderSlotLevel e = Except.ok (slotLevelChunk1 ++ e.level ++ slotLevelChunk2
            ++ String.join ((List.replicate (min U.toNat M.toNat) true
                ++ List.replicate (M.toNat - min U.toNat M.toNat) false).map checkboxHtml)
            ++ slotLevelCloseChunk)) := by
  obtain ⟨keyed, hkmap, hksnd, hkkeys⟩ := keyedMapM_ok slots hkey
  have hselems : sortSlotEntries slots = Except.ok (List.insertionSort slotKeyLE keyed) := by
    rw [sortSlotEntries, hkmap]
    rfl
  have hperm0 : (List.insertionSort slotKeyLE keyed).Perm keyed :=
    List.perm_insertionSort _ _
  have hperm : ((List.insertionSort slotKeyLE keyed).map (fun p => p.2)).Perm slots := by
    have hm := hperm0.map (fun p => p.2)
    rwa [hksnd] at hm
  obtain ⟨colA, hA⟩ := renderCol_ok _
    (fun e he => hnum e (hperm.subset (List.mem_of_mem_take he)))
  obtain ⟨colB, hB⟩ := renderCol_ok _
    (fun e he => hnum e (hperm.subset (List.mem_of_mem_drop he)))
  have hlen : ((List.insertionSort slotKeyLE keyed).map (fun p => p.2)).length
      = slots.length := hperm.length_eq
  have hmid : ((List.insertionSort slotKeyLE keyed).length + 1) / 2
      = (slots.length + 1) / 2 := by
    rw [← hlen, List.length_map]
  have hEmpty : slots.isEmpty = false := by
    cases slots with
    | nil => exact absurd rfl hne
    | cons a l => rfl
  refine ⟨List.insertionSort slotKeyLE keyed, colA, colB, hselems, hperm,
    List.sorted_insertionSort _ _,
    (fun p hp => hkkeys p (hperm0.subset hp)), hA, hB, ?_, by omega, ?_⟩
  · rw [spellSlotsSection]
    rw [if_neg (by rw [hEmpty]; exact Bool.false_ne_true)]
    rw [hselems]
    simp only [except_bind_ok, List.length_map, hmid, hA, hB]
    rfl
  · intro e M U hM hU
    rw [renderSlotLevel_ok e M U hM hU, markerFlags_eq]

/-- Concrete populated slot levels, out of order. -/
def c7Slots : List SlotEntry :=
  [SlotEntry.mk "3" "4" "2", SlotEntry.mk "1" "2" "0", SlotEntry.mk "2" "1" "1"]

/-- C7 witness: the slot column theorem applied to three concrete populated
    levels. -/
theorem c7_witness :
    ∃ (sortedE : List (Int × SlotEntry)) (colA colB : List String),
      sortSlotEntries c7Slots = Except.ok sortedE
      ∧ (sortedE.map (fun p => p.2)).Perm c7Slots
      ∧ sortedE.Pairwise slotKeyLE
      ∧ (∀ p ∈ sortedE, pyInt p.2.level = some p.1)
      ∧ ((sortedE.map (fun p => p.2)).take ((c7Slots.length + 1) / 2)).mapM renderSlotLevel
          = Except.ok colA
      ∧ ((sortedE.map (fun p => p.2)).drop ((c7Slots.length + 1) / 2)).mapM renderSlotLevel
          = Except.ok colB
      ∧ spellSlotsSection c7Slots
          = Except.ok (slotsHeaderChunk ++ colOpenChunk ++ String.join colA
              ++ colSwitchChunk ++ String.join colB ++ slotsCloseChunk)
      ∧ (c7Slots.length + 1) / 2 = c7Slots.length - c7Slots.length / 2
      ∧ (∀ (e : SlotEntry) (M U : Int), pyInt e.max = some M → pyInt e.used = some U →
          renderSlotLevel e = Except.ok (slotLevelChunk1 ++ e.level ++ slotLevelChunk2
            ++ String.join ((List.replicate (min U.toNat M.toNat) true
                ++ List.replicate (M.toNat - min U.toNat M.toNat) false).map checkboxHtml)
            ++ slotLevelCloseChunk)) :=
  c7_slot_columns c7Slots (by decide) (by decide) (by decide)



/-! Claim C4: the render stage can raise. A populated slot level whose max
    count is not numeric makes the int() call raise ValueError, surfaced as
    the generic error with no document. -/

/-- Concrete character record whose first slot level has the unparsable max
    x. -/
def c4Char : Elem :=
  Elem.mk "character" [] none
    [Elem.mk "powermeta" [] none
      [Elem.mk "spellslots1" [] none
        [Elem.mk "max" [] (some "x") [] none] none] none] none

/-- Concrete root containing c4Char. -/
def c4Root : Elem := Elem.mk "root" [] none [c4Char] none

/-- C4 failing run: the input is accepted by the Extractor and the bad slot
    entry reaches the model, yet the render stage raises the int()
    ValueError and no document is produced. -/
theorem c4_render_raises :
    findPath c4Root ["character"] = some c4Char
      ∧ (extractCharacter c4Char).spell_slots = [SlotEntry.mk "1" "x" "0"]
      ∧ render_html (extractCharacter c4Char) = Except.error (invalidIntMsg "x")
      ∧ parse_fgu c4Root
          = (none, some "invalid literal for int() with base 10: \x27x\x27") :=
  ⟨rfl, rfl, rfl, rfl⟩

/-! Claim C3: escaping of user-supplied values. The hp wound and temp
    values flow raw into single-quoted attribute values, and a non-numeric
    initiative flows raw through format_modifier into display context. -/

/-- Concrete wound text that closes the single-quoted attribute. -/
def w3Payload : String := "x\x27 onmouseover=\x27alert(1)"

/-- Concrete initiative text carrying markup. -/
def i3Payload : String := "<script>alert(1)</script>"

/-- Concrete character record with both malicious fields. -/
def c3Char : Elem :=
  Elem.mk "character" [] none
    [Elem.mk "name" [] (some "Bob") [] none,
     Elem.mk "hp" [] none [Elem.mk "wounds" [] (some w3Payload) [] none] none,
     Elem.mk "initiative" [] none [Elem.mk "total" [] (some i3Payload) [] none] none] none

/-- Concrete root containing c3Char. -/
def c3Root : Elem := Elem.mk "root" [] none [c3Char] none

/-- C3 failing run: both payloads are changed by escaping, the wound value
    lands between a value attribute opening quote and its closing quote,
    yet both payloads appear verbatim and unescaped in the produced
    document. -/
theorem c3_unescaped_interpolation :
    escape_html w3Payload ≠ w3Payload
      ∧ escape_html i3Payload ≠ i3Payload
      ∧ "value=\x27".data.isSuffixOf hpChunk2.data = true
      ∧ ("\x27".data.isPrefixOf hpChunk3.data) = true
      ∧ ∃ p q r, parse_fgu c3Root
          = (some (p ++ (hpChunk2 ++ w3Payload ++ hpChunk3) ++ q ++ i3Payload ++ r), none) := by
  refine ⟨by decide, by decide, by decide, by decide, ?_⟩
  refine ⟨headChunk1 ++ titleName "Bob" ++ headChunk2 ++ h1Name "Bob" ++ headChunk3
        ++ raceBlock "" "" ++ classesBlock [] ++ backgroundBlock "" ++ alignmentBlock ""
        ++ profBlock 1 ++ sidebarOpenChunk ++ abilitiesSection [] ++ skillsSection []
        ++ hpChunk1 ++ escape_html "",
      "" ++ hpChunk4 ++ escape_html "10" ++ hpChunk5,
      hpChunk6 ++ escape_html "30" ++ hpChunk7
        ++ featuresSection [] ++ featsSection [] ++ inventorySection [] ++ coinsSection []
        ++ "" ++ spellsSection [] ++ finalCloseChunk, ?_⟩
  have h1 : parse_fgu c3Root
      = (some (headChunk1 ++ titleName "Bob" ++ headChunk2 ++ h1Name "Bob" ++ headChunk3
          ++ raceBlock "" "" ++ classesBlock [] ++ backgroundBlock "" ++ alignmentBlock ""
          ++ profBlock 1 ++ sidebarOpenChunk ++ abilitiesSection [] ++ skillsSection []
          ++ hpCombatSection "" w3Payload "" "10" i3Payload "30"
          ++ featuresSection [] ++ featsSection [] ++ inventorySection [] ++ coinsSection []
          ++ "" ++ spellsSection [] ++ finalCloseChunk), none) := rfl
  rw [h1]
  have hfm : format_modifier i3Payload = i3Payload := by decide
  have hw : hpCombatSection "" w3Payload "" "10" i3Payload "30"
      = hpChunk1 ++ escape_html "" ++ hpChunk2 ++ w3Payload ++ hpChunk3 ++ ""
        ++ hpChunk4 ++ escape_html "10" ++ hpChunk5 ++ i3Payload
        ++ hpChunk6 ++ escape_html "30" ++ hpChunk7 := by
    rw [hpCombatSection, hfm]
  rw [hw]
  simp only [String.append_assoc]



/-! Claim C1: the MalformedInput error discipline of the core boundary. -/

/-- Bind on a failed Except computation. -/
theorem except_bind_error {α β : Type} (e : String) (f : α → Except String β) :
    ((Except.error e : Except String α) >>= f) = Except.error e := rfl

/-- Bind on a pure Except computation. -/
theorem except_pure_bind {α β : Type} (a : α) (f : α → Except String β) :
    ((pure a : Except String α) >>= f) = f a := rfl

/-- The only error pyIntE produces is the int() ValueError message. -/
theorem pyIntE_error_eq (s e : String) (h : pyIntE s = Except.error e) :
    e = invalidIntMsg s := by
  rw [pyIntE] at h
  cases hp : pyInt s with
  | some v => rw [hp] at h; exact absurd h (by simp)
  | none =>
    rw [hp] at h
    have := h.symm
    simp only [Except.error.injEq] at this
    exact this

/-- The only error a slot level render produces is an int() ValueError. -/
theorem renderSlotLevel_error (e : SlotEntry) (err : String)
    (h : renderSlotLevel e = Except.error err) : ∃ s, err = invalidIntMsg s := by
  rw [renderSlotLevel] at h
  cases hM : pyIntE e.max with
  | error e1 =>
    rw [hM, except_bind_error] at h
    simp only [Except.error.injEq] at h
    exact ⟨e.max, (pyIntE_error_eq _ _ hM) ▸ h.symm⟩
  | ok M =>
    rw [hM] at h
    simp only [except_bind_ok] at h
    cases hU : pyIntE e.used with
    | error e2 =>
      rw [hU, except_bind_error] at h
      simp only [Except.error.injEq] at h
      exact ⟨e.used, (pyIntE_error_eq _ _ hU) ▸ h.symm⟩
    | ok U =>
      rw [hU] at h
      simp only [except_bind_ok] at h
      exact nomatch h

/-- The only error a slot column render produces is an int() ValueError. -/
theorem renderColMapM_error : ∀ (l : List SlotEntry) (err : String),
    l.mapM renderSlotLevel = Except.error err → ∃ s, err = invalidIntMsg s := by
  intro l
  induction l with
  | nil =>
    intro err h
    exact nomatch h
  | cons hd tl ih =>
    intro err h
    rw [List.mapM_cons] at h
    cases hh : renderSlotLevel hd with
    | error e1 =>
      rw [hh, except_bind_error] at h
      simp only [Except.error.injEq] at h
      exact h ▸ renderSlotLevel_error hd e1 hh
    | ok v =>
      rw [hh] at h
      simp only [except_bind_ok] at h
      cases hr : tl.mapM renderSlotLevel with
      | error e2 =>
        rw [hr, except_bind_error] at h
        simp only [Except.error.injEq] at h
        exact h ▸ ih e2 hr
      | ok vs =>
        rw [hr] at h
        simp only [except_bind_ok] at h
        exact nomatch h

/-- The only error the key sort produces is an int() ValueError. -/
theorem keyedMapM_error : ∀ (l : List SlotEntry) (err : String),
    l.mapM (fun e => do
      let k ← pyIntE e.level
      pure (k, e)) = (Except.error err : Except String _) → ∃ s, err = invalidIntMsg s := by
  intro l
  induction l with
  | nil =>
    intro err h
    exact nomatch h
  | cons hd tl ih =>
    intro err h
    rw [List.mapM_cons] at h
    cases hh : pyIntE hd.level with
    | error e1 =>
      rw [hh] at h
      simp only [except_bind_error] at h
      simp only [Except.error.injEq] at h
      exact ⟨hd.level, h ▸ pyIntE_error_eq _ _ hh⟩
    | ok k =>
      rw [hh] at h
      simp only [except_bind_ok, except_pure_bind] at h
      cases hr : tl.mapM (fun e => do
          let k ← pyIntE e.level
          pure (k, e)) with
      | error e2 =>
        rw [hr] at h
        simp only [except_bind_error, Except.error.injEq] at h
        exact h ▸ ih e2 hr
      | ok vs =>
        rw [hr] at h
        simp only [except_bind_ok] at h
        exact nomatch h

/-- The only error the slot entry sort produces is an int() ValueError. -/
theorem sortSlotEntries_error (slots : List SlotEntry) (err : String)
    (h : sortSlotEntries slots = Except.error err) : ∃ s, err = invalidIntMsg s := by
  rw [sortSlotEntries] at h
  cases hm : slots.mapM (fun e => do
      let k ← pyIntE e.level
      pure (k, e)) with
  | error e1 =>
    rw [hm, except_bind_error] at h
    simp only [Except.error.injEq] at h
    exact h ▸ keyedMapM_error slots e1 hm
  | ok keyed =>
    rw [hm] at h
    simp only [except_bind_ok] at h
    exact nomatch h

/-- The only error the spell slot section produces is an int()
    ValueError. -/
theorem spellSlotsSection_error (slots : List SlotEntry) (err : String)
    (h : spellSlotsSection slots = Except.error err) : ∃ s, err = invalidIntMsg s := by
  rw [spellSlotsSection] at h
  by_cases he : slots.isEmpty = true
  · rw [if_pos he] at h
    exact nomatch h
  · rw [if_neg he] at h
    cases hs : sortSlotEntries slots with
    | error e1 =>
      rw [hs, except_bind_error] at h
      simp only [Except.error.injEq] at h
      exact h ▸ sortSlotEntries_error slots e1 hs
    | ok sortedE =>
      rw [hs] at h
      simp only [except_bind_ok] at h
      cases hA : ((sortedE.map (fun ke => ke.2)).take
          (((sortedE.map (fun ke => ke.2)).length + 1) / 2)).mapM renderSlotLevel with
      | error e2 =>
        rw [hA, except_bind_error] at h
        simp only [Except.error.injEq] at h
        exact h ▸ renderColMapM_error _ e2 hA
      | ok colA =>
        rw [hA] at h
        simp only [except_bind_ok] at h
        cases hB : ((sortedE.map (fun ke => ke.2)).drop
            (((sortedE.map (fun ke => ke.2)).length + 1) / 2)).mapM renderSlotLevel with
        | error e3 =>
          rw [hB, except_bind_error] at h
          simp only [Except.error.injEq] at h
          exact h ▸ renderColMapM_error _ e3 hB
        | ok colB =>
          rw [hB] at h
          simp only [except_bind_ok] at h
          exact nomatch h

/-- The only error the render stage produces is an int() ValueError. -/
theorem render_html_error (m : Character) (err : String)
    (h : render_html m = Except.error err) : ∃ s, err = invalidIntMsg s := by
  rw [render_html] at h
  cases hs : spellSlotsSection m.spell_slots with
  | error e1 =>
    rw [hs, except_bind_error] at h
    simp only [Except.error.injEq] at h
    exact h ▸ spellSlotsSection_error _ e1 hs
  | ok sec =>
    rw [hs] at h
    simp only [except_bind_ok] at h
    exact nomatch h

/-- The int() ValueError message is never the missing-record message. -/
theorem invalidIntMsg_ne_malformed (s : String) : invalidIntMsg s ≠ malformedMsg := by
  intro h
  have hd : (invalidIntMsg s).data.head? = malformedMsg.data.head? := by rw [h]
  rw [show (invalidIntMsg s).data
      = ("invalid literal for int() with base 10: \x27".data ++ s.data) ++ "\x27".data
    from rfl] at hd
  rw [List.head?_append, List.head?_append] at hd
  have h1 : "invalid literal for int() with base 10: \x27".data.head? = some 'i' := by decide
  have h2 : malformedMsg.data.head? = some 'E' := by decide
  rw [h1, h2] at hd
  simp only [Option.or] at hd
  exact absurd hd (by decide)

/-- The spell slot section succeeds when every populated level has parsable
    key, max, and used values; in particular when no level is populated. -/
theorem spellSlotsSection_ok (slots : List SlotEntry)
    (hkey : ∀ e ∈ slots, (pyInt e.level).isSome)
    (hnum : ∀ e ∈ slots, (pyInt e.max).isSome ∧ (pyInt e.used).isSome) :
    ∃ sec, spellSlotsSection slots = Except.ok sec := by
  by_cases hne : slots = []
  · subst hne
    exact ⟨"", rfl⟩
  · obtain ⟨keyed, hkmap, hksnd, _⟩ := keyedMapM_ok slots hkey
    have hselems : sortSlotEntries slots = Except.ok (List.insertionSort slotKeyLE keyed) := by
      rw [sortSlotEntries, hkmap]
      rfl
    have hperm : ((List.insertionSort slotKeyLE keyed).map (fun p => p.2)).Perm slots := by
      have hm := (List.perm_insertionSort slotKeyLE keyed).map (fun p => p.2)
      rwa [hksnd] at hm
    obtain ⟨colA, hA⟩ := renderCol_ok
      (((List.insertionSort slotKeyLE keyed).map (fun ke => ke.2)).take
        ((((List.insertionSort slotKeyLE keyed).map (fun ke => ke.2)).length + 1) / 2))
      (fun e he => hnum e (hperm.subset (List.mem_of_mem_take he)))
    obtain ⟨colB, hB⟩ := renderCol_ok
      (((List.insertionSort slotKeyLE keyed).map (fun ke => ke.2)).drop
        ((((List.insertionSort slotKeyLE keyed).map (fun ke => ke.2)).length + 1) / 2))
      (fun e he => hnum e (hperm.subset (List.mem_of_mem_drop he)))
    have hEmpty : slots.isEmpty = false := by
      cases slots with
      | nil => exact absurd rfl hne
      | cons a l => rfl
    refine ⟨slotsHeaderChunk ++ colOpenChunk ++ String.join colA ++ colSwitchChunk
      ++ String.join colB ++ slotsCloseChunk, ?_⟩
    rw [spellSlotsSection, if_neg (by rw [hEmpty]; exact Bool.false_ne_true), hselems]
    simp only [except_bind_ok, hA, hB]
    rfl

/-- C1: the MalformedInput message is returned, with no document, exactly
    when the character record is missing; and when the record is present
    and every populated slot level carries parsable counts (in particular
    whenever those fields are absent and defaulted), a document is
    produced with no error. -/
theorem c1_malformed_only (t : Elem) :
    (parse_fgu t = (none, some malformedMsg) ↔ findPath t ["character"] = none)
      ∧ (∀ c, findPath t ["character"] = some c →
          (∀ e ∈ (extractCharacter c).spell_slots,
              (pyInt e.level).isSome ∧ (pyInt e.max).isSome ∧ (pyInt e.used).isSome) →
          ∃ doc, parse_fgu t = (some doc, none)) := by
  constructor
  · constructor
    · intro h
      cases hf : findPath t ["character"] with
      | none => rfl
      | some c =>
        rw [parse_fgu, hf] at h
        dsimp only at h
        cases hr : render_html (extractCharacter c) with
        | ok html =>
          rw [hr] at h
          dsimp only at h
          exact absurd h (by simp)
        | error e =>
          rw [hr] at h
          dsimp only at h
          simp only [Prod.mk.injEq, Option.some.injEq] at h
          obtain ⟨s, hse⟩ := render_html_error _ e hr
          exact absurd (hse ▸ h.2) (invalidIntMsg_ne_malformed s)
    · intro h
      rw [parse_fgu, h]
  · intro c hc hdata
    obtain ⟨sec, hsec⟩ := spellSlotsSection_ok (extractCharacter c).spell_slots
      (fun e he => (hdata e he).1) (fun e he => ⟨(hdata e he).2.1, (hdata e he).2.2⟩)
    cases hr : render_html (extractCharacter c) with
    | ok html =>
      refine ⟨html, ?_⟩
      rw [parse_fgu, hc]
      dsimp only
      rw [hr]
    | error e =>
      rw [render_html, hsec] at hr
      simp only [except_bind_ok] at hr
      exact nomatch hr

/-- Concrete root with no character record. -/
def c1RootA : Elem := Elem.mk "root" [] none [] none

/-- Concrete empty character record. -/
def c1CharB : Elem := Elem.mk "character" [] none [] none

/-- Concrete root with a character record. -/
def c1RootB : Elem := Elem.mk "root" [] none [c1CharB] none

/-- C1 witness: the missing record yields the MalformedInput message with
    no document, and a present record with all slot fields defaulted yields
    a document with no error. -/
theorem c1_witness :
    parse_fgu c1RootA = (none, some malformedMsg)
      ∧ (∃ doc, parse_fgu c1RootB = (some doc, none)) :=
  ⟨(c1_malformed_only c1RootA).1.mpr rfl,
   (c1_malformed_only c1RootB).2 c1CharB rfl (by decide)⟩


end FGU
